import Mathlib

/-!
# Type-state transaction builder (`shared_model/builders/protobuf/transaction.hpp`)

A shallow embedding of `shared_model::proto::TemplateTransactionBuilder<S, SV>`.

* The template parameters `S` (the marker of required fields already supplied) and `SV`
  (the validator type) are carried as data next to the two data members
  `transaction_` and `stateless_validator_`.
* A member call is a function from the receiver to a `Called` record: the receiver after the
  call, and the outcome of the call.
* An outcome is an `Except Failure _`.  A `Failure` is either a rejection of the call by the
  compiler (`ill_formed`: no viable conversion, failed `static_assert`, a call expression on a
  pointer) or an exception leaving the call (`invalid_argument`, `domain_error`).
* The generated protobuf classes and the interface types are not part of the sources.  The
  messages are records with the fields that the builder writes, strings are `String`, blobs are
  lists of bytes, and the unsigned integer arguments (`CounterType`, `TimestampType`,
  `PrecisionType`, `QuorumType`) are natural numbers: a setter stores its argument as it is.
-/

namespace shared_model.proto

/-! ## Collaborator types (headers that the builder includes) -/

/-- Raw bytes, as returned by `PubkeyType::blob()`. -/
abbrev Bytes := List (Fin 256)

/-- The public key type `interface::types::PubkeyType`: the builder only reads its `blob()`. -/
structure PubkeyType where
  blob : Bytes
deriving DecidableEq

/-- Modelled from the spec: the amount message `iroha::protocol::Amount` of `commands.pb.h`
(not part of the sources); the builder treats it as an opaque pass-through value that only the
amount parser fills. -/
structure Amount where
  value : Nat := 0
  precision : Nat := 0
deriving DecidableEq

/-- Why a call produced no value. -/
inductive Failure where
  /-- The call is rejected at compile time. -/
  | ill_formed (diagnostic : String)
  /-- The exception `std::invalid_argument(what)` left the call. -/
  | invalid_argument (what : String)
  /-- An exception of the amount parser left the call. -/
  | domain_error (what : String)
deriving DecidableEq

/-- Modelled from the spec: `addAmount` of `builders/protobuf/helpers.hpp` is not part of the
sources.  Per the external-interface section it hands the numeric string, unmodified, to the
amount parser `parseAmount(numericString) -> AmountRepresentation`, stores the parser's result in
the amount message it was given, and a failure of the parser propagates as a domain error from
the enclosing command-adding call. -/
def addAmount (parseAmount : String → Except String Amount) (_amt : Amount)
    (str_amount : String) : Except Failure Amount :=
  match parseAmount str_amount with
  | .ok amount => .ok amount
  | .error what => .error (.domain_error what)

/-! ## Protobuf messages (`commands.pb.h`, `block.pb.h`) -/

/-- Message `AddAssetQuantity`. -/
structure AddAssetQuantity where
  account_id : String := ""
  asset_id : String := ""
  amount : Amount := {}
deriving DecidableEq

/-- Message `AddPeer`. -/
structure AddPeer where
  address : String := ""
  peer_key : Bytes := []
deriving DecidableEq

/-- Message `AddSignatory`. -/
structure AddSignatory where
  account_id : String := ""
  public_key : Bytes := []
deriving DecidableEq

/-- Message `RemoveSignatory`. -/
structure RemoveSignatory where
  account_id : String := ""
  public_key : Bytes := []
deriving DecidableEq

/-- Message `CreateAsset`. -/
structure CreateAsset where
  asset_name : String := ""
  domain_id : String := ""
  precision : Nat := 0
deriving DecidableEq

/-- Message `CreateAccount`. -/
structure CreateAccount where
  account_name : String := ""
  domain_id : String := ""
  main_pubkey : Bytes := []
deriving DecidableEq

/-- Message `CreateDomain`. -/
structure CreateDomain where
  domain_id : String := ""
  default_role : String := ""
deriving DecidableEq

/-- Message `SetAccountDetail`. -/
structure SetAccountDetail where
  account_id : String := ""
  key : String := ""
  value : String := ""
deriving DecidableEq

/-- Message `SetAccountQuorum`. -/
structure SetAccountQuorum where
  account_id : String := ""
  quorum : Nat := 0
deriving DecidableEq

/-- Message `TransferAsset`. -/
structure TransferAsset where
  src_account_id : String := ""
  dest_account_id : String := ""
  asset_id : String := ""
  description : String := ""
  amount : Amount := {}
deriving DecidableEq

/-- The message `iroha::protocol::Command`: a `oneof` over the command variants that this
builder can populate.  A freshly added command has no variant set. -/
inductive Command where
  | COMMAND_NOT_SET
  | add_asset_quantity (c : AddAssetQuantity)
  | add_peer (c : AddPeer)
  | add_signatory (c : AddSignatory)
  | remove_sign (c : RemoveSignatory)
  | create_asset (c : CreateAsset)
  | create_account (c : CreateAccount)
  | create_domain (c : CreateDomain)
  | set_account_detail (c : SetAccountDetail)
  | set_quorum (c : SetAccountQuorum)
  | transfer_asset (c : TransferAsset)
deriving DecidableEq

namespace Command

/-- Accessor `mutable_add_asset_quantity()`: the variant's message, created empty when the
`oneof` holds another case. -/
def mutable_add_asset_quantity : Command → AddAssetQuantity
  | add_asset_quantity c => c
  | _ => {}

/-- Accessor `mutable_add_peer()`. -/
def mutable_add_peer : Command → AddPeer
  | add_peer c => c
  | _ => {}

/-- Accessor `mutable_add_signatory()`. -/
def mutable_add_signatory : Command → AddSignatory
  | add_signatory c => c
  | _ => {}

/-- Accessor `mutable_remove_sign()`. -/
def mutable_remove_sign : Command → RemoveSignatory
  | remove_sign c => c
  | _ => {}

/-- Accessor `mutable_create_asset()`. -/
def mutable_create_asset : Command → CreateAsset
  | create_asset c => c
  | _ => {}

/-- Accessor `mutable_create_account()`. -/
def mutable_create_account : Command → CreateAccount
  | create_account c => c
  | _ => {}

/-- Accessor `mutable_create_domain()`. -/
def mutable_create_domain : Command → CreateDomain
  | create_domain c => c
  | _ => {}

/-- Accessor `mutable_set_account_detail()`. -/
def mutable_set_account_detail : Command → SetAccountDetail
  | set_account_detail c => c
  | _ => {}

/-- Accessor `mutable_set_quorum()`. -/
def mutable_set_quorum : Command → SetAccountQuorum
  | set_quorum c => c
  | _ => {}

/-- Accessor `mutable_transfer_asset()`. -/
def mutable_transfer_asset : Command → TransferAsset
  | transfer_asset c => c
  | _ => {}

end Command

/-- The message `iroha::protocol::Transaction::Payload`: the draft of the transaction. -/
structure Payload where
  commands : List Command := []
  creator_account_id : String := ""
  tx_counter : Nat := 0
  created_time : Nat := 0
deriving DecidableEq

/-- The message `iroha::protocol::Transaction` (`ProtoTx` in the builder). -/
structure ProtoTx where
  payload : Payload := {}
deriving DecidableEq

namespace ProtoTx

/-- The setter `mutable_payload()->set_creator_account_id(account_id)`. -/
def set_creator_account_id (tx : ProtoTx) (account_id : String) : ProtoTx :=
  { tx with payload := { tx.payload with creator_account_id := account_id } }

/-- The setter `mutable_payload()->set_tx_counter(tx_counter)`. -/
def set_tx_counter (tx : ProtoTx) (tx_counter : Nat) : ProtoTx :=
  { tx with payload := { tx.payload with tx_counter := tx_counter } }

/-- The setter `mutable_payload()->set_created_time(created_time)`. -/
def set_created_time (tx : ProtoTx) (created_time : Nat) : ProtoTx :=
  { tx with payload := { tx.payload with created_time := created_time } }

/-- The call `mutable_payload()->add_commands()` followed by the writes through the returned
pointer: the repeated field gets one more element, at the end, holding what was written. -/
def add_commands (tx : ProtoTx) (written : Command) : ProtoTx :=
  { tx with payload := { tx.payload with commands := tx.payload.commands ++ [written] } }

end ProtoTx

/-- The wrapper `shared_model::proto::Transaction` around a protobuf transaction. -/
structure Transaction where
  proto : ProtoTx
deriving DecidableEq

/-- The wrapper `UnsignedWrapper<Transaction>`: the unsigned transaction handed to signing. -/
structure UnsignedWrapper where
  object_ : Transaction
deriving DecidableEq

/-- The helper `detail::make_polymorphic<Transaction>(transaction_)`: a pointer to a fresh
`Transaction` built from a copy of the protobuf object. -/
def make_polymorphic (transaction_ : ProtoTx) : Transaction :=
  { proto := transaction_ }

/-- The answer of a validator: `hasErrors()` and `reason()`. -/
structure Answer where
  hasErrors : Bool
  reason : String
deriving DecidableEq

/-- A validator object: the builder only calls `validate` on it. -/
structure StatelessValidator where
  validate : Transaction → Answer

/-- The validator type `SV`, the second template argument.  C++ types are nominal: the builder
tells `validation::DefaultValidator` from any other type. -/
inductive ValidatorType where
  | DefaultValidator
  | other (name : String)
deriving DecidableEq

/-! ## The builder -/

/-- The class `TemplateTransactionBuilder<S, SV>`: template arguments and data members. -/
structure TemplateTransactionBuilder where
  /-- Template argument `int S`: the marker. -/
  S : Int
  /-- Template argument `typename SV`. -/
  SV : ValidatorType
  transaction_ : ProtoTx
  stateless_validator_ : StatelessValidator

/-- What a member call leaves behind: the receiver `*this` after the call and the outcome. -/
structure Called (α : Type) where
  receiver : TemplateTransactionBuilder
  outcome : Except Failure α

namespace RequiredFields

/-- Enumerator `Command`. -/
def Command : Int := 0

/-- Enumerator `CreatorAccountId`. -/
def CreatorAccountId : Int := 1

/-- Enumerator `TxCounter`. -/
def TxCounter : Int := 2

/-- Enumerator `CreatedTime`. -/
def CreatedTime : Int := 3

/-- Enumerator `TOTAL`. -/
def TOTAL : Int := 4

end RequiredFields

namespace TemplateTransactionBuilder

/-- The marker of `NextBuilder<s>`, that is `S | (1 << s)`. -/
def NextBuilder (S s : Int) : Int :=
  Int.lor S ((1 : Int) <<< s)

/-- The copy-initialisation `TemplateTransactionBuilder<target, SV> copy = o;`.
When the target type is the type of `o` the implicit copy constructor runs.  Otherwise the only
candidate is the private converting constructor
`template <int Sp> TemplateTransactionBuilder(const TemplateTransactionBuilder<Sp> &o)`, whose
parameter type names the validator type by default, `validation::DefaultValidator`: it
accepts `o` only when `SV` is that type.  Both constructors copy `transaction_` and
`stateless_validator_`. -/
def copy_initialize (target : Int) (o : TemplateTransactionBuilder) :
    Except Failure TemplateTransactionBuilder :=
  if target = o.S then
    .ok o
  else if o.SV = ValidatorType.DefaultValidator then
    .ok { S := target, SV := o.SV, transaction_ := o.transaction_,
          stateless_validator_ := o.stateless_validator_ }
  else
    .error (.ill_formed "no viable conversion between builder types")

/-- The public constructor `TemplateTransactionBuilder(const SV &validator = SV())`: an empty
transaction and the given validator. -/
def new (S : Int) (SV : ValidatorType) (validator : StatelessValidator) :
    TemplateTransactionBuilder :=
  { S := S, SV := SV, transaction_ := {}, stateless_validator_ := validator }

/-- The private member `transform<Fields>(t)`: copy, change the copy, return the copy. -/
def transform (self : TemplateTransactionBuilder) (Fields : Int) (t : ProtoTx → ProtoTx) :
    Called TemplateTransactionBuilder :=
  { receiver := self
    outcome := do
      let copy ← copy_initialize (NextBuilder self.S Fields) self
      let copy := { copy with transaction_ := t copy.transaction_ }
      return copy }

/-- The private member `addCommand(t)`: copy, add one command to the copy and let `t` fill
it, return the copy. -/
def addCommand (self : TemplateTransactionBuilder) (t : Command → Except Failure Command) :
    Called TemplateTransactionBuilder :=
  { receiver := self
    outcome := do
      let copy ← copy_initialize (NextBuilder self.S RequiredFields.Command) self
      let proto_command ← t Command.COMMAND_NOT_SET
      let copy := { copy with transaction_ := copy.transaction_.add_commands proto_command }
      return copy }

/-- Member `creatorAccountId(account_id)`. -/
def creatorAccountId (self : TemplateTransactionBuilder) (account_id : String) :
    Called TemplateTransactionBuilder :=
  self.transform RequiredFields.CreatorAccountId fun tx =>
    tx.set_creator_account_id account_id

/-- Member `txCounter(tx_counter)`. -/
def txCounter (self : TemplateTransactionBuilder) (tx_counter : Nat) :
    Called TemplateTransactionBuilder :=
  self.transform RequiredFields.TxCounter fun tx =>
    tx.set_tx_counter tx_counter

/-- Member `createdTime(created_time)`. -/
def createdTime (self : TemplateTransactionBuilder) (created_time : Nat) :
    Called TemplateTransactionBuilder :=
  self.transform RequiredFields.CreatedTime fun tx =>
    tx.set_created_time created_time

/-- Member `addAssetQuantity(account_id, asset_id, amount)`. -/
def addAssetQuantity (parseAmount : String → Except String Amount)
    (self : TemplateTransactionBuilder) (account_id asset_id amount : String) :
    Called TemplateTransactionBuilder :=
  self.addCommand fun proto_command => do
    let command := proto_command.mutable_add_asset_quantity
    let command := { command with account_id := account_id }
    let command := { command with asset_id := asset_id }
    let parsed ← addAmount parseAmount command.amount amount
    let command := { command with amount := parsed }
    return Command.add_asset_quantity command

/-- Member `addPeer(address, peer_key)`. -/
def addPeer (self : TemplateTransactionBuilder) (address : String) (peer_key : PubkeyType) :
    Called TemplateTransactionBuilder :=
  self.addCommand fun proto_command =>
    let command := proto_command.mutable_add_peer
    let command := { command with address := address }
    let command := { command with peer_key := peer_key.blob }
    return Command.add_peer command

/-- Member `addSignatory(account_id, public_key)`. -/
def addSignatory (self : TemplateTransactionBuilder) (account_id : String)
    (public_key : PubkeyType) : Called TemplateTransactionBuilder :=
  self.addCommand fun proto_command =>
    let command := proto_command.mutable_add_signatory
    let command := { command with account_id := account_id }
    let command := { command with public_key := public_key.blob }
    return Command.add_signatory command

/-- Member `removeSignatory(account_id, public_key)`. -/
def removeSignatory (self : TemplateTransactionBuilder) (account_id : String)
    (public_key : PubkeyType) : Called TemplateTransactionBuilder :=
  self.addCommand fun proto_command =>
    let command := proto_command.mutable_remove_sign
    let command := { command with account_id := account_id }
    let command := { command with public_key := public_key.blob }
    return Command.remove_sign command

/-- Member `createAsset(asset_name, domain_id, precision)`. -/
def createAsset (self : TemplateTransactionBuilder) (asset_name domain_id : String)
    (precision : Nat) : Called TemplateTransactionBuilder :=
  self.addCommand fun proto_command =>
    let command := proto_command.mutable_create_asset
    let command := { command with asset_name := asset_name }
    let command := { command with domain_id := domain_id }
    let command := { command with precision := precision }
    return Command.create_asset command

/-- Member `createAccount(account_name, domain_id, main_pubkey)`. -/
def createAccount (self : TemplateTransactionBuilder) (account_name domain_id : String)
    (main_pubkey : PubkeyType) : Called TemplateTransactionBuilder :=
  self.addCommand fun proto_command =>
    let command := proto_command.mutable_create_account
    let command := { command with account_name := account_name }
    let command := { command with domain_id := domain_id }
    let command := { command with main_pubkey := main_pubkey.blob }
    return Command.create_account command

/-- Member `createDomain(domain_id, default_role)`. -/
def createDomain (self : TemplateTransactionBuilder) (domain_id default_role : String) :
    Called TemplateTransactionBuilder :=
  self.addCommand fun proto_command =>
    let command := proto_command.mutable_create_domain
    let command := { command with domain_id := domain_id }
    let command := { command with default_role := default_role }
    return Command.create_domain command

/-- The expression `proto_command()` in the body of `setAccountDetail`: a function call whose
callee is the parameter `proto_command`, a pointer `ProtoCommand *`.  A pointer to an object is
not callable, so the instantiation of the lambda is rejected. -/
def call_pointer (_proto_command : Command) : Except Failure Command :=
  .error (.ill_formed "called object type is not a function or function pointer")

/-- Member `setAccountDetail(account_id, key, value)` (the one mutator not declared `const`). -/
def setAccountDetail (self : TemplateTransactionBuilder) (account_id key value : String) :
    Called TemplateTransactionBuilder :=
  self.addCommand fun proto_command => do
    let command := (← call_pointer proto_command).mutable_set_account_detail
    let command := { command with account_id := account_id }
    let command := { command with key := key }
    let command := { command with value := value }
    return Command.set_account_detail command

/-- Member `setAccountQuorum(account_id, quorum)`. -/
def setAccountQuorum (self : TemplateTransactionBuilder) (account_id : String) (quorum : Nat) :
    Called TemplateTransactionBuilder :=
  self.addCommand fun proto_command =>
    let command := proto_command.mutable_set_quorum
    let command := { command with account_id := account_id }
    let command := { command with quorum := quorum }
    return Command.set_quorum command

/-- Member `transferAsset(src_account_id, dest_account_id, asset_id, description, amount)`. -/
def transferAsset (parseAmount : String → Except String Amount)
    (self : TemplateTransactionBuilder)
    (src_account_id dest_account_id asset_id description amount : String) :
    Called TemplateTransactionBuilder :=
  self.addCommand fun proto_command => do
    let command := proto_command.mutable_transfer_asset
    let command := { command with src_account_id := src_account_id }
    let command := { command with dest_account_id := dest_account_id }
    let command := { command with asset_id := asset_id }
    let command := { command with description := description }
    let parsed ← addAmount parseAmount command.amount amount
    let command := { command with amount := parsed }
    return Command.transfer_asset command

/-- Member `build()`: the `static_assert` on the marker, the validator call, and either the
exception `std::invalid_argument(answer.reason())` or the wrapped copy of the transaction. -/
def build (self : TemplateTransactionBuilder) : Called UnsignedWrapper :=
  { receiver := self
    outcome :=
      if self.S ≠ ((1 : Int) <<< RequiredFields.TOTAL) - 1 then
        .error (.ill_formed "Required fields are not set")
      else
        let answer := self.stateless_validator_.validate (make_polymorphic self.transaction_)
        if answer.hasErrors then
          .error (.invalid_argument answer.reason)
        else
          .ok { object_ := { proto := self.transaction_ } } }

/-- The field `static const int total = RequiredFields::TOTAL`. -/
def total : Int := RequiredFields.TOTAL

end TemplateTransactionBuilder

/-- The alias `using TransactionBuilder = TemplateTransactionBuilder<>`: marker `0` and the
default validator type, built by the public constructor. -/
def TransactionBuilder (validator : StatelessValidator) : TemplateTransactionBuilder :=
  TemplateTransactionBuilder.new 0 ValidatorType.DefaultValidator validator

/-! ## Call sequences -/

/-- A mutator call with its arguments, as data: one constructor per public mutator. -/
inductive Call where
  | creatorAccountId (account_id : String)
  | txCounter (tx_counter : Nat)
  | createdTime (created_time : Nat)
  | addAssetQuantity (account_id asset_id amount : String)
  | addPeer (address : String) (peer_key : PubkeyType)
  | addSignatory (account_id : String) (public_key : PubkeyType)
  | removeSignatory (account_id : String) (public_key : PubkeyType)
  | createAsset (asset_name domain_id : String) (precision : Nat)
  | createAccount (account_name domain_id : String) (main_pubkey : PubkeyType)
  | createDomain (domain_id default_role : String)
  | setAccountDetail (account_id key value : String)
  | setAccountQuorum (account_id : String) (quorum : Nat)
  | transferAsset (src_account_id dest_account_id asset_id description amount : String)
deriving DecidableEq

namespace Call

/-- The member call that a `Call` stands for, made on `self`. -/
def apply (parseAmount : String → Except String Amount) (self : TemplateTransactionBuilder) :
    Call → Called TemplateTransactionBuilder
  | creatorAccountId account_id => self.creatorAccountId account_id
  | txCounter tx_counter => self.txCounter tx_counter
  | createdTime created_time => self.createdTime created_time
  | addAssetQuantity account_id asset_id amount =>
      self.addAssetQuantity parseAmount account_id asset_id amount
  | addPeer address peer_key => self.addPeer address peer_key
  | addSignatory account_id public_key => self.addSignatory account_id public_key
  | removeSignatory account_id public_key => self.removeSignatory account_id public_key
  | createAsset asset_name domain_id precision =>
      self.createAsset asset_name domain_id precision
  | createAccount account_name domain_id main_pubkey =>
      self.createAccount account_name domain_id main_pubkey
  | createDomain domain_id default_role => self.createDomain domain_id default_role
  | setAccountDetail account_id key value => self.setAccountDetail account_id key value
  | setAccountQuorum account_id quorum => self.setAccountQuorum account_id quorum
  | transferAsset src_account_id dest_account_id asset_id description amount =>
      self.transferAsset parseAmount src_account_id dest_account_id asset_id description amount

/-- Whether the call is one of the command-adding methods. -/
def addsCommand : Call → Bool
  | creatorAccountId _ => false
  | txCounter _ => false
  | createdTime _ => false
  | _ => true

/-- The required field that the method of the call stands for (the template argument of its
`NextBuilder`). -/
def field : Call → Int
  | creatorAccountId _ => RequiredFields.CreatorAccountId
  | txCounter _ => RequiredFields.TxCounter
  | createdTime _ => RequiredFields.CreatedTime
  | _ => RequiredFields.Command

end Call

/-- The fluent chain `self.c₁(…).c₂(…)…`: every call is made on the value returned by the
call before it; the first failure ends the chain. -/
def chain (parseAmount : String → Except String Amount) :
    TemplateTransactionBuilder → List Call → Except Failure TemplateTransactionBuilder
  | self, [] => .ok self
  | self, c :: cs =>
    match (c.apply parseAmount self).outcome with
    | .ok next => chain parseAmount next cs
    | .error e => .error e

/-! ## The data model of the specification, per call -/

namespace Call

/-- The command that the data model of the specification assigns to a command-adding call:
the variant named by the method, each field holding the corresponding argument, public keys as
their blob and the amount as the result of the amount parser. -/
def command (parseAmount : String → Except String Amount) : Call → Option Command
  | creatorAccountId _ => none
  | txCounter _ => none
  | createdTime _ => none
  | addAssetQuantity account_id asset_id amount =>
    match parseAmount amount with
    | .ok parsed =>
      some (.add_asset_quantity
        { account_id := account_id, asset_id := asset_id, amount := parsed })
    | .error _ => none
  | addPeer address peer_key =>
    some (.add_peer { address := address, peer_key := peer_key.blob })
  | addSignatory account_id public_key =>
    some (.add_signatory { account_id := account_id, public_key := public_key.blob })
  | removeSignatory account_id public_key =>
    some (.remove_sign { account_id := account_id, public_key := public_key.blob })
  | createAsset asset_name domain_id precision =>
    some (.create_asset
      { asset_name := asset_name, domain_id := domain_id, precision := precision })
  | createAccount account_name domain_id main_pubkey =>
    some (.create_account
      { account_name := account_name, domain_id := domain_id,
        main_pubkey := main_pubkey.blob })
  | createDomain domain_id default_role =>
    some (.create_domain { domain_id := domain_id, default_role := default_role })
  | setAccountDetail account_id key value =>
    some (.set_account_detail { account_id := account_id, key := key, value := value })
  | setAccountQuorum account_id quorum =>
    some (.set_quorum { account_id := account_id, quorum := quorum })
  | transferAsset src_account_id dest_account_id asset_id description amount =>
    match parseAmount amount with
    | .ok parsed =>
      some (.transfer_asset
        { src_account_id := src_account_id, dest_account_id := dest_account_id,
          asset_id := asset_id, description := description, amount := parsed })
    | .error _ => none

/-- The draft that the specification expects after the call: one scalar replaced, or the
command of the call appended. -/
def draft (parseAmount : String → Except String Amount) (tx : ProtoTx) : Call → Option ProtoTx
  | creatorAccountId account_id => some (tx.set_creator_account_id account_id)
  | txCounter tx_counter => some (tx.set_tx_counter tx_counter)
  | createdTime created_time => some (tx.set_created_time created_time)
  | c => (c.command parseAmount).map tx.add_commands

/-- Whether the call is a call of `setAccountDetail`. -/
def isSetAccountDetail : Call → Bool
  | setAccountDetail _ _ _ => true
  | _ => false

/-- The write of a scalar setter call on a draft (and no write for the other calls). -/
def setScalar : Call → ProtoTx → ProtoTx
  | creatorAccountId account_id, tx => tx.set_creator_account_id account_id
  | txCounter tx_counter, tx => tx.set_tx_counter tx_counter
  | createdTime created_time, tx => tx.set_created_time created_time
  | _, tx => tx

end Call

/-! ## Validator stubs used by the concrete instances -/

/-- A validator stub that always reports errors, with reason "bad". -/
def alwaysBad : StatelessValidator :=
  { validate := fun _ => { hasErrors := true, reason := "bad" } }

/-- A validator stub that never reports errors. -/
def alwaysValid : StatelessValidator :=
  { validate := fun _ => { hasErrors := false, reason := "" } }

/-- An amount parser for the concrete instances: it accepts the string "1" only. -/
def parseOne (str_amount : String) : Except String Amount :=
  if str_amount = "1" then .ok { value := 1, precision := 0 } else .error "malformed amount"

/-- The marker whose bits are the four given flags (`Command`, `CreatorAccountId`,
`TxCounter`, `CreatedTime`). -/
def markerOf (command creator counter time : Bool) : Int :=
  (if command then 1 else 0) + (if creator then 2 else 0) + (if counter then 4 else 0) +
    (if time then 8 else 0)

/-! # Theorems -/

/-! ## Basic facts about the private members -/

namespace TemplateTransactionBuilder

theorem full_marker : ((1 : Int) <<< RequiredFields.TOTAL) - 1 = 15 := by decide

theorem copy_initialize_ok_iff (target : Int) (o c : TemplateTransactionBuilder) :
    copy_initialize target o = .ok c ↔
      (target = o.S ∨ o.SV = ValidatorType.DefaultValidator) ∧
      c = { S := target, SV := o.SV, transaction_ := o.transaction_,
            stateless_validator_ := o.stateless_validator_ } := by
  unfold copy_initialize
  by_cases h1 : target = o.S
  · rw [if_pos h1]
    constructor
    · intro h
      cases h
      exact ⟨Or.inl h1, by rw [h1]⟩
    · rintro ⟨_, h⟩
      rw [h, h1]
  · rw [if_neg h1]
    by_cases h2 : o.SV = ValidatorType.DefaultValidator
    · rw [if_pos h2]
      constructor
      · intro h
        cases h
        exact ⟨Or.inr h2, rfl⟩
      · rintro ⟨_, h⟩
        rw [h]
    · rw [if_neg h2]
      constructor
      · intro h; cases h
      · rintro ⟨h | h, _⟩
        · exact absurd h h1
        · exact absurd h h2

theorem transform_ok_iff (self n : TemplateTransactionBuilder) (Fields : Int)
    (t : ProtoTx → ProtoTx) :
    (self.transform Fields t).outcome = .ok n ↔
      (NextBuilder self.S Fields = self.S ∨ self.SV = ValidatorType.DefaultValidator) ∧
      n = { S := NextBuilder self.S Fields, SV := self.SV,
            transaction_ := t self.transaction_,
            stateless_validator_ := self.stateless_validator_ } := by
  unfold transform
  simp only [bind, Except.bind, pure, Except.pure]
  cases hc : copy_initialize (NextBuilder self.S Fields) self with
  | error e =>
    have hno : ¬ ((NextBuilder self.S Fields = self.S ∨
        self.SV = ValidatorType.DefaultValidator)) := by
      intro hcond
      have := (copy_initialize_ok_iff (NextBuilder self.S Fields) self _).2 ⟨hcond, rfl⟩
      rw [hc] at this; cases this
    simp only [hno, false_and, iff_false]
    intro h; cases h
  | ok c =>
    obtain ⟨hcond, hcopy⟩ := (copy_initialize_ok_iff _ _ _).1 hc
    subst hcopy
    simp only [hcond, true_and, Except.ok.injEq]
    constructor
    · intro h; rw [← h]
    · intro h; rw [h]

theorem addCommand_ok_iff (self n : TemplateTransactionBuilder)
    (t : Command → Except Failure Command) :
    (self.addCommand t).outcome = .ok n ↔
      (NextBuilder self.S RequiredFields.Command = self.S ∨
        self.SV = ValidatorType.DefaultValidator) ∧
      ∃ written, t Command.COMMAND_NOT_SET = .ok written ∧
        n = { S := NextBuilder self.S RequiredFields.Command, SV := self.SV,
              transaction_ := self.transaction_.add_commands written,
              stateless_validator_ := self.stateless_validator_ } := by
  unfold addCommand
  simp only [bind, Except.bind, pure, Except.pure]
  cases hc : copy_initialize (NextBuilder self.S RequiredFields.Command) self with
  | error e =>
    have hno : ¬ ((NextBuilder self.S RequiredFields.Command = self.S ∨
        self.SV = ValidatorType.DefaultValidator)) := by
      intro hcond
      have := (copy_initialize_ok_iff (NextBuilder self.S RequiredFields.Command) self _).2
        ⟨hcond, rfl⟩
      rw [hc] at this; cases this
    simp only [hno, false_and, iff_false]
    intro h; cases h
  | ok c =>
    obtain ⟨hcond, hcopy⟩ := (copy_initialize_ok_iff _ _ _).1 hc
    subst hcopy
    simp only [hcond, true_and]
    cases ht : t Command.COMMAND_NOT_SET with
    | error e =>
      constructor
      · intro h; cases h
      · rintro ⟨w, hw, _⟩; cases hw
    | ok w =>
      constructor
      · intro h; cases h; exact ⟨w, rfl, rfl⟩
      · rintro ⟨w2, hw, hn⟩; cases hw; rw [hn]

end TemplateTransactionBuilder

/-- The outcome of one call, in closed form: a call other than `setAccountDetail` succeeds
exactly when the copy-initialisation of its `NextBuilder` is well-formed and its amount (if any)
parses, and then it returns the expected draft under the next marker. -/
theorem apply_ok_iff (parseAmount : String → Except String Amount)
    (self n : TemplateTransactionBuilder) (c : Call) :
    (c.apply parseAmount self).outcome = .ok n ↔
      c.isSetAccountDetail = false ∧
      (TemplateTransactionBuilder.NextBuilder self.S c.field = self.S ∨
        self.SV = ValidatorType.DefaultValidator) ∧
      ∃ tx, c.draft parseAmount self.transaction_ = some tx ∧
        n = { S := TemplateTransactionBuilder.NextBuilder self.S c.field, SV := self.SV,
              transaction_ := tx, stateless_validator_ := self.stateless_validator_ } := by
  cases c with
  | creatorAccountId a =>
    simp [Call.apply, TemplateTransactionBuilder.creatorAccountId,
      TemplateTransactionBuilder.transform_ok_iff, Call.field, Call.draft,
      Call.isSetAccountDetail]
  | txCounter a =>
    simp [Call.apply, TemplateTransactionBuilder.txCounter,
      TemplateTransactionBuilder.transform_ok_iff, Call.field, Call.draft,
      Call.isSetAccountDetail]
  | createdTime a =>
    simp [Call.apply, TemplateTransactionBuilder.createdTime,
      TemplateTransactionBuilder.transform_ok_iff, Call.field, Call.draft,
      Call.isSetAccountDetail]
  | addAssetQuantity a b amt =>
    simp only [Call.apply, TemplateTransactionBuilder.addAssetQuantity,
      TemplateTransactionBuilder.addCommand_ok_iff, Call.field, Call.draft,
      Call.isSetAccountDetail, Call.command, addAmount, true_and]
    cases parseAmount amt <;>
      simp [bind, Except.bind, pure, Except.pure, Command.mutable_add_asset_quantity]
  | addPeer a k =>
    simp [Call.apply, TemplateTransactionBuilder.addPeer,
      TemplateTransactionBuilder.addCommand_ok_iff, Call.field, Call.draft,
      Call.isSetAccountDetail, Call.command, pure, Except.pure, Command.mutable_add_peer]
  | addSignatory a k =>
    simp [Call.apply, TemplateTransactionBuilder.addSignatory,
      TemplateTransactionBuilder.addCommand_ok_iff, Call.field, Call.draft,
      Call.isSetAccountDetail, Call.command, pure, Except.pure,
      Command.mutable_add_signatory]
  | removeSignatory a k =>
    simp [Call.apply, TemplateTransactionBuilder.removeSignatory,
      TemplateTransactionBuilder.addCommand_ok_iff, Call.field, Call.draft,
      Call.isSetAccountDetail, Call.command, pure, Except.pure,
      Command.mutable_remove_sign]
  | createAsset a d p =>
    simp [Call.apply, TemplateTransactionBuilder.createAsset,
      TemplateTransactionBuilder.addCommand_ok_iff, Call.field, Call.draft,
      Call.isSetAccountDetail, Call.command, pure, Except.pure,
      Command.mutable_create_asset]
  | createAccount a d k =>
    simp [Call.apply, TemplateTransactionBuilder.createAccount,
      TemplateTransactionBuilder.addCommand_ok_iff, Call.field, Call.draft,
      Call.isSetAccountDetail, Call.command, pure, Except.pure,
      Command.mutable_create_account]
  | createDomain d r =>
    simp [Call.apply, TemplateTransactionBuilder.createDomain,
      TemplateTransactionBuilder.addCommand_ok_iff, Call.field, Call.draft,
      Call.isSetAccountDetail, Call.command, pure, Except.pure,
      Command.mutable_create_domain]
  | setAccountDetail a k v =>
    simp [Call.apply, TemplateTransactionBuilder.setAccountDetail,
      TemplateTransactionBuilder.addCommand_ok_iff, Call.isSetAccountDetail,
      TemplateTransactionBuilder.call_pointer, bind, Except.bind]
  | setAccountQuorum a q =>
    simp [Call.apply, TemplateTransactionBuilder.setAccountQuorum,
      TemplateTransactionBuilder.addCommand_ok_iff, Call.field, Call.draft,
      Call.isSetAccountDetail, Call.command, pure, Except.pure,
      Command.mutable_set_quorum]
  | transferAsset a b c d amt =>
    simp only [Call.apply, TemplateTransactionBuilder.transferAsset,
      TemplateTransactionBuilder.addCommand_ok_iff, Call.field, Call.draft,
      Call.isSetAccountDetail, Call.command, addAmount, true_and]
    cases parseAmount amt <;>
      simp [bind, Except.bind, pure, Except.pure, Command.mutable_transfer_asset]

/-! ## Chains -/

theorem chain_cons_ok_iff (parseAmount : String → Except String Amount)
    (self r : TemplateTransactionBuilder) (c : Call) (cs : List Call) :
    chain parseAmount self (c :: cs) = .ok r ↔
      ∃ next, (c.apply parseAmount self).outcome = .ok next ∧
        chain parseAmount next cs = .ok r := by
  rw [chain]
  cases h : (c.apply parseAmount self).outcome with
  | error e =>
    constructor
    · intro h2; cases h2
    · rintro ⟨next, h2, _⟩; cases h2
  | ok next =>
    constructor
    · intro h2; exact ⟨next, rfl, h2⟩
    · rintro ⟨n2, h2, h3⟩; cases h2; exact h3

theorem chain_append_ok_iff (parseAmount : String → Except String Amount)
    (cs ds : List Call) (self r : TemplateTransactionBuilder) :
    chain parseAmount self (cs ++ ds) = .ok r ↔
      ∃ mid, chain parseAmount self cs = .ok mid ∧ chain parseAmount mid ds = .ok r := by
  induction cs generalizing self with
  | nil =>
    simp only [List.nil_append, chain, Except.ok.injEq, exists_eq_left']
  | cons c cs ih =>
    simp only [List.cons_append, chain_cons_ok_iff, ih]
    constructor
    · rintro ⟨next, h1, mid, h2, h3⟩
      exact ⟨mid, ⟨next, h1, h2⟩, h3⟩
    · rintro ⟨mid, ⟨next, h1, h2⟩, h3⟩
      exact ⟨next, h1, mid, h2, h3⟩

/-- The default validator type never blocks a chain: it runs to the end as soon as no call is
a `setAccountDetail` and every amount parses. -/
theorem chain_ok_of_default (parseAmount : String → Except String Amount)
    (cs : List Call) (self : TemplateTransactionBuilder)
    (hSV : self.SV = ValidatorType.DefaultValidator)
    (hcs : ∀ c ∈ cs, c.isSetAccountDetail = false ∧
      (c.addsCommand = true → (c.command parseAmount).isSome = true)) :
    ∃ r, chain parseAmount self cs = .ok r := by
  induction cs generalizing self with
  | nil => exact ⟨self, rfl⟩
  | cons c cs ih =>
    obtain ⟨h1, h2⟩ := hcs c (List.mem_cons_self _ _)
    have hd : ∃ tx, c.draft parseAmount self.transaction_ = some tx := by
      cases c <;>
        first
        | exact ⟨_, rfl⟩
        | (obtain ⟨w, hw⟩ := Option.isSome_iff_exists.1 (h2 rfl)
           exact ⟨_, by simp only [Call.draft, hw, Option.map_some']; rfl⟩)
    obtain ⟨tx, htx⟩ := hd
    have hstep := (apply_ok_iff parseAmount self _ c).2 ⟨h1, Or.inr hSV, tx, htx, rfl⟩
    obtain ⟨r, hr⟩ := ih
      { S := TemplateTransactionBuilder.NextBuilder self.S c.field, SV := self.SV,
        transaction_ := tx, stateless_validator_ := self.stateless_validator_ }
      hSV (fun d hm => hcs d (List.mem_cons_of_mem _ hm))
    exact ⟨r, (chain_cons_ok_iff _ _ _ _ _).2 ⟨_, hstep, hr⟩⟩

/-- A chain keeps the validator type and the validator object of the builder it starts from. -/
theorem chain_validator (parseAmount : String → Except String Amount)
    (cs : List Call) (self r : TemplateTransactionBuilder)
    (h : chain parseAmount self cs = .ok r) :
    r.SV = self.SV ∧ r.stateless_validator_ = self.stateless_validator_ := by
  induction cs generalizing self with
  | nil => cases h; exact ⟨rfl, rfl⟩
  | cons c cs ih =>
    obtain ⟨next, h1, h2⟩ := (chain_cons_ok_iff _ _ _ _ _).1 h
    obtain ⟨_, _, tx, _, hn⟩ := (apply_ok_iff _ _ _ _).1 h1
    have := ih _ h2
    rw [hn] at this
    exact this

/-- The command list after a chain: the list before it, followed by the commands of the
command-adding calls, in call order. -/
theorem chain_commands (parseAmount : String → Except String Amount)
    (cs : List Call) (self r : TemplateTransactionBuilder)
    (h : chain parseAmount self cs = .ok r) :
    r.transaction_.payload.commands =
      self.transaction_.payload.commands ++ cs.filterMap (Call.command parseAmount) ∧
    (cs.filterMap (Call.command parseAmount)).length = cs.countP Call.addsCommand := by
  induction cs generalizing self with
  | nil => cases h; simp
  | cons c cs ih =>
    obtain ⟨next, h1, h2⟩ := (chain_cons_ok_iff _ _ _ _ _).1 h
    obtain ⟨hsad, _, tx, htx, hn⟩ := (apply_ok_iff _ _ _ _).1 h1
    obtain ⟨ih1, ih2⟩ := ih _ h2
    rw [hn] at ih1
    simp only at ih1
    have key : tx.payload.commands =
        self.transaction_.payload.commands ++ (Call.command parseAmount c).toList ∧
        (Call.command parseAmount c).toList.length = if c.addsCommand then 1 else 0 := by
      cases c <;> simp only [Call.draft, Option.some.injEq, Option.map_eq_some'] at htx <;>
        first
        | (subst htx; simp [Call.command, Call.addsCommand, ProtoTx.set_creator_account_id,
            ProtoTx.set_tx_counter, ProtoTx.set_created_time])
        | (obtain ⟨w, hw, rfl⟩ := htx
           simp [hw, Call.addsCommand, ProtoTx.add_commands])
    rw [ih1, key.1]
    cases hc : Call.command parseAmount c with
    | none =>
      have := key.2; rw [hc] at this
      simp only [Option.toList, List.length_nil] at this
      have hadd : c.addsCommand = false := by
        cases hb : c.addsCommand with
        | false => rfl
        | true => rw [hb] at this; simp at this
      simp [List.filterMap_cons, hc, hadd, ih2]
    | some w =>
      have := key.2; rw [hc] at this
      simp only [Option.toList, List.length_singleton] at this
      have hadd : c.addsCommand = true := by
        cases hb : c.addsCommand with
        | true => rfl
        | false => rw [hb] at this; simp at this
      simp [List.filterMap_cons, hc, hadd, ih2]

/-! ## Markers -/

theorem NextBuilder_markerOf (c a t r : Bool) (k : Int)
    (hk : k = 0 ∨ k = 1 ∨ k = 2 ∨ k = 3) :
    TemplateTransactionBuilder.NextBuilder (markerOf c a t r) k =
      markerOf (c || k == 0) (a || k == 1) (t || k == 2) (r || k == 3) := by
  rcases hk with rfl | rfl | rfl | rfl <;> cases c <;> cases a <;> cases t <;> cases r <;>
    decide

theorem markerOf_eq_full_iff (c a t r : Bool) :
    markerOf c a t r = 15 ↔ c = true ∧ a = true ∧ t = true ∧ r = true := by
  cases c <;> cases a <;> cases t <;> cases r <;> decide

theorem field_cases (c : Call) : c.field = 0 ∨ c.field = 1 ∨ c.field = 2 ∨ c.field = 3 := by
  cases c <;> simp [Call.field, RequiredFields.Command, RequiredFields.CreatorAccountId,
    RequiredFields.TxCounter, RequiredFields.CreatedTime]

/-- The marker after a chain: the bits before it, and the bit of every call made. -/
theorem chain_marker (parseAmount : String → Except String Amount)
    (cs : List Call) (self r : TemplateTransactionBuilder) (c a t k : Bool)
    (hS : self.S = markerOf c a t k)
    (h : chain parseAmount self cs = .ok r) :
    r.S = markerOf (c || cs.any fun x => x.field == 0) (a || cs.any fun x => x.field == 1)
      (t || cs.any fun x => x.field == 2) (k || cs.any fun x => x.field == 3) := by
  induction cs generalizing self c a t k with
  | nil => cases h; simpa using hS
  | cons x cs ih =>
    obtain ⟨next, h1, h2⟩ := (chain_cons_ok_iff _ _ _ _ _).1 h
    obtain ⟨_, _, tx, _, hn⟩ := (apply_ok_iff _ _ _ _).1 h1
    have hnS : next.S = markerOf (c || x.field == 0) (a || x.field == 1)
        (t || x.field == 2) (k || x.field == 3) := by
      rw [hn]
      simp only
      rw [hS]
      exact NextBuilder_markerOf c a t k _ (field_cases x)
    have := ih next _ _ _ _ hnS h2
    rw [this]
    simp only [List.any_cons, Bool.or_assoc]

theorem any_field_command (cs : List Call) :
    (cs.any fun x => x.field == 0) = true ↔ ∃ x ∈ cs, x.addsCommand = true := by
  simp only [List.any_eq_true]
  constructor
  · rintro ⟨x, hx, hf⟩
    refine ⟨x, hx, ?_⟩
    cases x <;> first | rfl | (simp [Call.field, Call.addsCommand, RequiredFields.Command,
      RequiredFields.CreatorAccountId, RequiredFields.TxCounter, RequiredFields.CreatedTime] at hf)
  · rintro ⟨x, hx, hf⟩
    refine ⟨x, hx, ?_⟩
    cases x <;> first | rfl | (simp [Call.field, Call.addsCommand, RequiredFields.Command,
      RequiredFields.CreatorAccountId, RequiredFields.TxCounter, RequiredFields.CreatedTime] at hf)

theorem any_field_creator (cs : List Call) :
    (cs.any fun x => x.field == 1) = true ↔ ∃ v, Call.creatorAccountId v ∈ cs := by
  simp only [List.any_eq_true]
  constructor
  · rintro ⟨x, hx, hf⟩
    cases x <;> first | exact ⟨_, hx⟩ | (simp [Call.field, Call.addsCommand, RequiredFields.Command,
      RequiredFields.CreatorAccountId, RequiredFields.TxCounter, RequiredFields.CreatedTime] at hf)
  · rintro ⟨v, hv⟩
    exact ⟨_, hv, rfl⟩

theorem any_field_counter (cs : List Call) :
    (cs.any fun x => x.field == 2) = true ↔ ∃ v, Call.txCounter v ∈ cs := by
  simp only [List.any_eq_true]
  constructor
  · rintro ⟨x, hx, hf⟩
    cases x <;> first | exact ⟨_, hx⟩ | (simp [Call.field, Call.addsCommand, RequiredFields.Command,
      RequiredFields.CreatorAccountId, RequiredFields.TxCounter, RequiredFields.CreatedTime] at hf)
  · rintro ⟨v, hv⟩
    exact ⟨_, hv, rfl⟩

theorem any_field_time (cs : List Call) :
    (cs.any fun x => x.field == 3) = true ↔ ∃ v, Call.createdTime v ∈ cs := by
  simp only [List.any_eq_true]
  constructor
  · rintro ⟨x, hx, hf⟩
    cases x <;> first | exact ⟨_, hx⟩ | (simp [Call.field, Call.addsCommand, RequiredFields.Command,
      RequiredFields.CreatorAccountId, RequiredFields.TxCounter, RequiredFields.CreatedTime] at hf)
  · rintro ⟨v, hv⟩
    exact ⟨_, hv, rfl⟩

/-- The `static_assert` of `build`, as a fact about the outcome. -/
theorem build_ill_formed_iff (b : TemplateTransactionBuilder) :
    (∃ d, b.build.outcome = .error (.ill_formed d)) ↔ b.S ≠ 15 := by
  unfold TemplateTransactionBuilder.build
  rw [TemplateTransactionBuilder.full_marker]
  by_cases h : b.S = 15
  · simp only [ne_eq, h, not_true_eq_false, if_false, iff_false, not_exists]
    intro d
    split <;> intro hc <;> cases hc
  · simp only [ne_eq, h, not_false_eq_true, if_true, iff_true]
    exact ⟨_, rfl⟩

/-! ## Finalisation -/

/-- C1: on a builder whose marker is the full required set, `build()` fails exactly when the
validator's answer for the assembled transaction has errors; the failure is then
`std::invalid_argument` carrying `answer.reason()` unchanged, and no unsigned transaction is
returned. -/
theorem build_fails_exactly_on_validator_errors (b : TemplateTransactionBuilder)
    (hS : b.S = 15) :
    ((b.stateless_validator_.validate (make_polymorphic b.transaction_)).hasErrors = true →
      b.build.outcome = .error (.invalid_argument
        (b.stateless_validator_.validate (make_polymorphic b.transaction_)).reason) ∧
      ∀ u, b.build.outcome ≠ .ok u) ∧
    (∀ e, b.build.outcome = .error e →
      (b.stateless_validator_.validate (make_polymorphic b.transaction_)).hasErrors = true ∧
      e = .invalid_argument
        (b.stateless_validator_.validate (make_polymorphic b.transaction_)).reason) := by
  have hm : ¬ b.S ≠ ((1 : Int) <<< RequiredFields.TOTAL) - 1 := by
    rw [TemplateTransactionBuilder.full_marker]; simpa using hS
  refine ⟨fun h => ⟨?_, ?_⟩, ?_⟩
  · simp only [TemplateTransactionBuilder.build, if_neg hm, h, if_true]
  · intro u
    simp only [TemplateTransactionBuilder.build, if_neg hm, h, if_true]
    intro hc; cases hc
  · intro e he
    simp only [TemplateTransactionBuilder.build, if_neg hm] at he
    split at he
    · rename_i h; cases he; exact ⟨h, rfl⟩
    · cases he

/-- C1, a concrete instance: a complete builder around the stub that always answers "bad"
fails with exactly "bad". -/
theorem build_fails_exactly_on_validator_errors_witness :
    (TemplateTransactionBuilder.new 15 (ValidatorType.other "Stub") alwaysBad).S = 15 ∧
    (TemplateTransactionBuilder.new 15 (ValidatorType.other "Stub") alwaysBad).build.outcome =
      .error (.invalid_argument "bad") :=
  ⟨rfl, ((build_fails_exactly_on_validator_errors
    (TemplateTransactionBuilder.new 15 (ValidatorType.other "Stub") alwaysBad) rfl).1 rfl).1⟩

/-- C2: on a builder whose marker is the full required set and whose validator reports no
errors for the assembled transaction, `build()` returns an unsigned transaction wrapping the
draft of the builder: same creator account id, counter, created time and command list. -/
theorem build_returns_the_draft (b : TemplateTransactionBuilder) (hS : b.S = 15)
    (hok : (b.stateless_validator_.validate (make_polymorphic b.transaction_)).hasErrors
      = false) :
    ∃ u, b.build.outcome = .ok u ∧
      u.object_.proto = b.transaction_ ∧
      u.object_.proto.payload.creator_account_id = b.transaction_.payload.creator_account_id ∧
      u.object_.proto.payload.tx_counter = b.transaction_.payload.tx_counter ∧
      u.object_.proto.payload.created_time = b.transaction_.payload.created_time ∧
      u.object_.proto.payload.commands = b.transaction_.payload.commands ∧
      u.object_.proto.payload.commands.length = b.transaction_.payload.commands.length := by
  have hm : ¬ b.S ≠ ((1 : Int) <<< RequiredFields.TOTAL) - 1 := by
    rw [TemplateTransactionBuilder.full_marker]; simpa using hS
  refine ⟨{ object_ := { proto := b.transaction_ } }, ?_, rfl, rfl, rfl, rfl, rfl, rfl⟩
  simp only [TemplateTransactionBuilder.build, if_neg hm, hok]
  rfl

/-- C2, a concrete instance: a complete builder with two commands and an accepting validator
builds a transaction with those two commands, in order. -/
theorem build_returns_the_draft_witness :
    ∃ u, (TemplateTransactionBuilder.build
        { S := 15, SV := ValidatorType.DefaultValidator,
          transaction_ := { payload :=
            { commands := [Command.create_domain { domain_id := "d", default_role := "user" },
                Command.set_quorum { account_id := "a@d", quorum := 2 }],
              creator_account_id := "a@d", tx_counter := 7, created_time := 9 } },
          stateless_validator_ := alwaysValid }).outcome = .ok u ∧
      u.object_.proto.payload.commands =
        [Command.create_domain { domain_id := "d", default_role := "user" },
          Command.set_quorum { account_id := "a@d", quorum := 2 }] ∧
      u.object_.proto.payload.creator_account_id = "a@d" ∧
      u.object_.proto.payload.tx_counter = 7 ∧ u.object_.proto.payload.created_time = 9 := by
  obtain ⟨u, h1, _, h3, h4, h5, h6, _⟩ := build_returns_the_draft
    { S := 15, SV := ValidatorType.DefaultValidator,
      transaction_ := { payload :=
        { commands := [Command.create_domain { domain_id := "d", default_role := "user" },
            Command.set_quorum { account_id := "a@d", quorum := 2 }],
          creator_account_id := "a@d", tx_counter := 7, created_time := 9 } },
      stateless_validator_ := alwaysValid } rfl rfl
  exact ⟨u, h1, h6, h3, h4, h5⟩

/-! ## The marker and the required fields -/

/-- C3: after any sequence of mutator calls on the empty builder (marker 0) the marker is the
full required set, the value that `build()` demands, if and only if the sequence has a
`creatorAccountId` call, a `txCounter` call, a `createdTime` call and a command-adding call;
`build()` is admissible for exactly these builders, and it is rejected for every builder whose
marker misses the bit of a required field.  Under the default validator type the sequence
runs to its end as soon as no call is a `setAccountDetail` and every amount parses. -/
theorem marker_full_iff_all_required_supplied
    (parseAmount : String → Except String Amount) (SV : ValidatorType)
    (validator : StatelessValidator) (cs : List Call) :
    (∀ r, chain parseAmount (TemplateTransactionBuilder.new 0 SV validator) cs = .ok r →
      (r.S = ((1 : Int) <<< RequiredFields.TOTAL) - 1 ↔
        (∃ v, Call.creatorAccountId v ∈ cs) ∧ (∃ v, Call.txCounter v ∈ cs) ∧
        (∃ v, Call.createdTime v ∈ cs) ∧ ∃ x ∈ cs, x.addsCommand = true) ∧
      ((∀ d, r.build.outcome ≠ .error (.ill_formed d)) ↔
        (∃ v, Call.creatorAccountId v ∈ cs) ∧ (∃ v, Call.txCounter v ∈ cs) ∧
        (∃ v, Call.createdTime v ∈ cs) ∧ ∃ x ∈ cs, x.addsCommand = true)) ∧
    (SV = ValidatorType.DefaultValidator →
      (∀ c ∈ cs, c.isSetAccountDetail = false ∧
        (c.addsCommand = true → (c.command parseAmount).isSome = true)) →
      ∃ r, chain parseAmount (TemplateTransactionBuilder.new 0 SV validator) cs = .ok r) ∧
    (∀ (b : TemplateTransactionBuilder) (k : Nat), k < 4 → b.S.testBit k = false →
      b.build.outcome = .error (.ill_formed "Required fields are not set")) := by
  refine ⟨fun r h => ?_, fun hSV hcs => ?_, fun b k hk hbit => ?_⟩
  · have hm := chain_marker parseAmount cs _ r false false false false rfl h
    simp only [Bool.false_or] at hm
    have hfull : r.S = 15 ↔
        (∃ v, Call.creatorAccountId v ∈ cs) ∧ (∃ v, Call.txCounter v ∈ cs) ∧
        (∃ v, Call.createdTime v ∈ cs) ∧ ∃ x ∈ cs, x.addsCommand = true := by
      rw [hm, markerOf_eq_full_iff, any_field_command, any_field_creator, any_field_counter,
        any_field_time]
      constructor
      · rintro ⟨h0, h1, h2, h3⟩; exact ⟨h1, h2, h3, h0⟩
      · rintro ⟨h1, h2, h3, h0⟩; exact ⟨h0, h1, h2, h3⟩
    refine ⟨by rw [TemplateTransactionBuilder.full_marker]; exact hfull, ?_⟩
    rw [← hfull]
    have := build_ill_formed_iff r
    constructor
    · intro hno
      by_contra hne
      obtain ⟨d, hd⟩ := this.2 hne
      exact hno d hd
    · intro h15 d hd
      exact this.1 ⟨d, hd⟩ h15
  · exact chain_ok_of_default parseAmount cs _ hSV hcs
  · have hne : b.S ≠ ((1 : Int) <<< RequiredFields.TOTAL) - 1 := by
      rw [TemplateTransactionBuilder.full_marker]
      intro h15
      rw [h15] at hbit
      interval_cases k <;> revert hbit <;> decide
    simp only [TemplateTransactionBuilder.build, if_pos hne]

/-- C3, a concrete instance: the four setters in an unusual order complete the marker, and
the same sequence without `txCounter` does not. -/
theorem marker_full_iff_all_required_supplied_witness :
    (∃ r, chain parseOne (TemplateTransactionBuilder.new 0 ValidatorType.DefaultValidator
        alwaysValid)
        [Call.createdTime 1000, Call.addPeer "127.0.0.1:10001" { blob := [] },
          Call.txCounter 1, Call.creatorAccountId "a@domain"] = .ok r ∧ r.S = 15) ∧
    (∃ r, chain parseOne (TemplateTransactionBuilder.new 0 ValidatorType.DefaultValidator
        alwaysValid)
        [Call.createdTime 1000, Call.addPeer "127.0.0.1:10001" { blob := [] },
          Call.creatorAccountId "a@domain"] = .ok r ∧ r.S ≠ 15) := by
  refine ⟨⟨_, rfl, ?_⟩, ⟨_, rfl, ?_⟩⟩
  · have h := (marker_full_iff_all_required_supplied parseOne ValidatorType.DefaultValidator
      alwaysValid [Call.createdTime 1000, Call.addPeer "127.0.0.1:10001" { blob := [] },
        Call.txCounter 1, Call.creatorAccountId "a@domain"]).1 _ rfl
    exact h.1.2 ⟨⟨"a@domain", by simp⟩, ⟨1, by simp⟩, ⟨1000, by simp⟩,
      ⟨Call.addPeer "127.0.0.1:10001" { blob := [] }, by simp, rfl⟩⟩
  · intro h15
    have h := (marker_full_iff_all_required_supplied parseOne ValidatorType.DefaultValidator
      alwaysValid [Call.createdTime 1000, Call.addPeer "127.0.0.1:10001" { blob := [] },
        Call.creatorAccountId "a@domain"]).1 _ rfl
    obtain ⟨_, ⟨v, hv⟩, _⟩ := h.1.1 h15
    simp at hv

/-! ## Command composition -/

/-- C4: a sequence of calls made on a builder, command-adding calls interleaved arbitrarily
with scalar setters, leaves the command list of the receiver followed by the commands of
the command-adding calls in call order: the length grows by the number of command-adding
calls, nothing is reordered, merged or dropped; and from a builder without commands the
finalized transaction holds exactly those commands.  Under the default validator type the
sequence runs to its end as soon as no call is a `setAccountDetail` and every amount parses. -/
theorem commands_appended_in_call_order (parseAmount : String → Except String Amount)
    (b : TemplateTransactionBuilder) (cs : List Call) :
    (∀ r, chain parseAmount b cs = .ok r →
      r.transaction_.payload.commands =
        b.transaction_.payload.commands ++ cs.filterMap (Call.command parseAmount) ∧
      (cs.filterMap (Call.command parseAmount)).length = cs.countP Call.addsCommand ∧
      r.transaction_.payload.commands.length =
        b.transaction_.payload.commands.length + cs.countP Call.addsCommand ∧
      (b.transaction_.payload.commands = [] → ∀ u, r.build.outcome = .ok u →
        u.object_.proto.payload.commands = cs.filterMap (Call.command parseAmount) ∧
        u.object_.proto.payload.commands.length = cs.countP Call.addsCommand)) ∧
    (b.SV = ValidatorType.DefaultValidator →
      (∀ c ∈ cs, c.isSetAccountDetail = false ∧
        (c.addsCommand = true → (c.command parseAmount).isSome = true)) →
      ∃ r, chain parseAmount b cs = .ok r) := by
  refine ⟨fun r h => ?_, fun hSV hcs => chain_ok_of_default parseAmount cs b hSV hcs⟩
  obtain ⟨h1, h2⟩ := chain_commands parseAmount cs b r h
  refine ⟨h1, h2, by rw [h1, List.length_append, h2], ?_⟩
  intro hnil u hu
  have hu2 : u.object_.proto = r.transaction_ := by
    unfold TemplateTransactionBuilder.build at hu
    simp only at hu
    split at hu
    · cases hu
    · split at hu
      · cases hu
      · cases hu; rfl
  rw [hu2, h1, hnil, List.nil_append]
  exact ⟨rfl, h2⟩

/-- C4, a concrete instance: three command additions around two scalar setters, one of the
commands added twice. -/
theorem commands_appended_in_call_order_witness :
    ∃ r, chain parseOne (TransactionBuilder alwaysValid)
        [Call.createDomain "d" "user", Call.creatorAccountId "a@d",
          Call.addAssetQuantity "a@d" "coin#d" "1", Call.txCounter 3,
          Call.createDomain "d" "user"] = .ok r ∧
      r.transaction_.payload.commands =
        [Command.create_domain { domain_id := "d", default_role := "user" },
          Command.add_asset_quantity
            { account_id := "a@d", asset_id := "coin#d",
              amount := { value := 1, precision := 0 } },
          Command.create_domain { domain_id := "d", default_role := "user" }] :=
  ⟨_, rfl, ((commands_appended_in_call_order parseOne (TransactionBuilder alwaysValid)
    [Call.createDomain "d" "user", Call.creatorAccountId "a@d",
      Call.addAssetQuantity "a@d" "coin#d" "1", Call.txCounter 3,
      Call.createDomain "d" "user"]).1 _ rfl).1⟩

/-! ## Overwriting a scalar -/

theorem lor_right_comm (z : Int) (a b : Nat) :
    Int.lor (Int.lor z a) b = Int.lor (Int.lor z b) a := by
  cases z with
  | ofNat m =>
    show ((m ||| a ||| b : Nat) : Int) = ((m ||| b ||| a : Nat) : Int)
    rw [Nat.lor_assoc, Nat.lor_comm a b, ← Nat.lor_assoc]
  | negSucc m =>
    show Int.negSucc (Nat.ldiff (Nat.ldiff m a) b) = Int.negSucc (Nat.ldiff (Nat.ldiff m b) a)
    congr 1
    apply Nat.eq_of_testBit_eq
    intro i
    simp only [Nat.testBit_ldiff, Bool.and_assoc]
    rw [Bool.and_comm (!a.testBit i)]

theorem lor_idem (z : Int) (a : Nat) : Int.lor (Int.lor z a) a = Int.lor z a := by
  cases z with
  | ofNat m =>
    show ((m ||| a ||| a : Nat) : Int) = ((m ||| a : Nat) : Int)
    rw [Nat.lor_assoc, Nat.or_self]
  | negSucc m =>
    show Int.negSucc (Nat.ldiff (Nat.ldiff m a) a) = Int.negSucc (Nat.ldiff m a)
    congr 1
    apply Nat.eq_of_testBit_eq
    intro i
    simp only [Nat.testBit_ldiff, Bool.and_assoc, Bool.and_self]

theorem bit_cases (k : Int) (hk : k = 0 ∨ k = 1 ∨ k = 2 ∨ k = 3) :
    ∃ n : Nat, (1 : Int) <<< k = (n : Int) := by
  rcases hk with rfl | rfl | rfl | rfl
  · exact ⟨1, by decide⟩
  · exact ⟨2, by decide⟩
  · exact ⟨4, by decide⟩
  · exact ⟨8, by decide⟩

theorem NextBuilder_right_comm (S : Int) (c d : Call) :
    TemplateTransactionBuilder.NextBuilder (TemplateTransactionBuilder.NextBuilder S c.field)
      d.field =
    TemplateTransactionBuilder.NextBuilder (TemplateTransactionBuilder.NextBuilder S d.field)
      c.field := by
  obtain ⟨a, ha⟩ := bit_cases _ (field_cases c)
  obtain ⟨b, hb⟩ := bit_cases _ (field_cases d)
  simp only [TemplateTransactionBuilder.NextBuilder, ha, hb]
  exact lor_right_comm S a b

theorem NextBuilder_idem (S : Int) (c : Call) :
    TemplateTransactionBuilder.NextBuilder (TemplateTransactionBuilder.NextBuilder S c.field)
      c.field = TemplateTransactionBuilder.NextBuilder S c.field := by
  obtain ⟨a, ha⟩ := bit_cases _ (field_cases c)
  simp only [TemplateTransactionBuilder.NextBuilder, ha]
  exact lor_idem S a

theorem draft_setScalar (parseAmount : String → Except String Amount) (s c : Call)
    (x y x' : ProtoTx) (h : s.setScalar x = s.setScalar y)
    (hx : c.draft parseAmount x = some x') :
    ∃ y', c.draft parseAmount y = some y' ∧ s.setScalar x' = s.setScalar y' := by
  have hcmd : ∀ w, s.setScalar (x.add_commands w) = s.setScalar (y.add_commands w) := by
    intro w
    cases s <;>
      simp only [Call.setScalar, ProtoTx.set_creator_account_id, ProtoTx.set_tx_counter,
        ProtoTx.set_created_time, ProtoTx.add_commands, ProtoTx.mk.injEq,
        Payload.mk.injEq] at h ⊢ <;>
      first
      | (obtain ⟨h1, h2, h3⟩ := h; simp [h1, h2, h3])
      | (subst h; simp)
  cases c <;> simp only [Call.draft, Option.some.injEq, Option.map_eq_some'] at hx ⊢ <;>
    first
    | (obtain ⟨w, hw, rfl⟩ := hx
       exact ⟨_, ⟨w, hw, rfl⟩, hcmd w⟩)
    | (subst hx
       refine ⟨_, rfl, ?_⟩
       cases s <;>
        simp only [Call.setScalar, ProtoTx.set_creator_account_id, ProtoTx.set_tx_counter,
          ProtoTx.set_created_time, ProtoTx.mk.injEq, Payload.mk.injEq] at h ⊢ <;>
        first
        | (obtain ⟨h1, h2, h3⟩ := h; simp [h1, h2, h3])
        | (subst h; simp))

/-- What `build()` returns wraps the transaction of the builder. -/
theorem build_ok_proto (b : TemplateTransactionBuilder) (u : UnsignedWrapper)
    (h : b.build.outcome = .ok u) : u.object_.proto = b.transaction_ := by
  unfold TemplateTransactionBuilder.build at h
  simp only at h
  split at h
  · cases h
  · split at h
    · cases h
    · cases h; rfl

/-- Two chains that start from builders differing only by an earlier call of the scalar
setter `s` stay in step: same validator, same draft up to the scalar of `s`, and markers that
differ by the bit of `s` at most. -/
theorem chain_overwritten (parseAmount : String → Except String Amount) (s : Call)
    (cs : List Call) (x y rx : TemplateTransactionBuilder)
    (hSV : x.SV = y.SV) (hv : x.stateless_validator_ = y.stateless_validator_)
    (hS : x.S = TemplateTransactionBuilder.NextBuilder y.S s.field)
    (hnd : x.SV ≠ ValidatorType.DefaultValidator → x.S = y.S)
    (ht : s.setScalar x.transaction_ = s.setScalar y.transaction_)
    (h : chain parseAmount x cs = .ok rx) :
    ∃ ry, chain parseAmount y cs = .ok ry ∧ rx.SV = ry.SV ∧
      rx.stateless_validator_ = ry.stateless_validator_ ∧
      rx.S = TemplateTransactionBuilder.NextBuilder ry.S s.field ∧
      (rx.SV ≠ ValidatorType.DefaultValidator → rx.S = ry.S) ∧
      s.setScalar rx.transaction_ = s.setScalar ry.transaction_ := by
  induction cs generalizing x y with
  | nil => cases h; exact ⟨y, rfl, hSV, hv, hS, hnd, ht⟩
  | cons c cs ih =>
    obtain ⟨nx, h1, h2⟩ := (chain_cons_ok_iff _ _ _ _ _).1 h
    obtain ⟨hsad, hconv, tx, htx, hn⟩ := (apply_ok_iff _ _ _ _).1 h1
    obtain ⟨ty, hty, hst⟩ := draft_setScalar parseAmount s c _ _ _ ht htx
    have hconvy : TemplateTransactionBuilder.NextBuilder y.S c.field = y.S ∨
        y.SV = ValidatorType.DefaultValidator := by
      by_cases hd : x.SV = ValidatorType.DefaultValidator
      · exact Or.inr (hSV ▸ hd)
      · rcases hconv with hc | hc
        · left; rw [← hnd hd]; exact hc
        · exact absurd hc hd
    have hstep := (apply_ok_iff parseAmount y _ c).2 ⟨hsad, hconvy, ty, hty, rfl⟩
    subst hn
    obtain ⟨ry, hry, hrest⟩ := ih
      { S := TemplateTransactionBuilder.NextBuilder x.S c.field, SV := x.SV,
        transaction_ := tx, stateless_validator_ := x.stateless_validator_ }
      { S := TemplateTransactionBuilder.NextBuilder y.S c.field, SV := y.SV,
        transaction_ := ty, stateless_validator_ := y.stateless_validator_ }
      hSV hv (by simp only; rw [hS]; exact NextBuilder_right_comm y.S s c)
      (by intro hd; simp only at hd ⊢; rw [hnd hd]) hst h2
    exact ⟨ry, (chain_cons_ok_iff _ _ _ _ _).2 ⟨_, hstep, hry⟩, hrest⟩

/-- A scalar setter called again, after any calls in between, is accepted and leaves the same
builder as the chain without the first call. -/
theorem overwrite_generic (parseAmount : String → Except String Amount) (s1 s2 : Call)
    (hf : s1.field = s2.field)
    (h1 : ∀ tx, s1.draft parseAmount tx = some (s1.setScalar tx))
    (h2 : ∀ tx, s2.draft parseAmount tx = some (s2.setScalar tx))
    (h12 : ∀ tx, s2.setScalar (s1.setScalar tx) = s2.setScalar tx)
    (hn2 : s2.isSetAccountDetail = false)
    (b m : TemplateTransactionBuilder) (cs : List Call)
    (h : chain parseAmount b (s1 :: cs) = .ok m) :
    ∃ r, (s2.apply parseAmount m).outcome = .ok r ∧
      r.transaction_ = s2.setScalar m.transaction_ ∧
      chain parseAmount b (cs ++ [s2]) = .ok r := by
  obtain ⟨x, hx, hxm⟩ := (chain_cons_ok_iff _ _ _ _ _).1 h
  obtain ⟨_, hconv, tx, htx, hxe⟩ := (apply_ok_iff _ _ _ _).1 hx
  rw [h1] at htx
  cases htx
  subst hxe
  obtain ⟨ry, hry, hSV, hv, hS, hnd, ht⟩ := chain_overwritten parseAmount s2 cs
    { S := TemplateTransactionBuilder.NextBuilder b.S s1.field, SV := b.SV,
      transaction_ := s1.setScalar b.transaction_,
      stateless_validator_ := b.stateless_validator_ } b m rfl rfl
    (by simp only; rw [hf])
    (by
      intro hd
      simp only at hd ⊢
      rcases hconv with hc | hc
      · exact hc
      · exact absurd hc hd)
    (h12 _) hxm
  have hm : (s2.apply parseAmount m).outcome = .ok
      { S := TemplateTransactionBuilder.NextBuilder m.S s2.field, SV := m.SV,
        transaction_ := s2.setScalar m.transaction_,
        stateless_validator_ := m.stateless_validator_ } :=
    (apply_ok_iff parseAmount m _ s2).2
      ⟨hn2, Or.inl (by rw [hS]; exact NextBuilder_idem ry.S s2), _, h2 _, rfl⟩
  refine ⟨_, hm, rfl, ?_⟩
  refine (chain_append_ok_iff _ _ _ _ _).2 ⟨ry, hry, ?_⟩
  refine (chain_cons_ok_iff _ _ _ _ _).2 ⟨_, ?_, rfl⟩
  refine (apply_ok_iff parseAmount ry _ s2).2 ⟨hn2, ?_, _, h2 _, ?_⟩
  · by_cases hd : m.SV = ValidatorType.DefaultValidator
    · exact Or.inr (hSV ▸ hd)
    · left
      have := hnd hd
      rw [← this, hS]
      exact NextBuilder_idem ry.S s2
  · rw [hS, NextBuilder_idem, hSV, hv, ht]

/-- C5: a single-valued setter called with `v1` and called again with `v2`, after any calls
in between, is accepted and leaves `v2` in the draft; the builder it returns is the one of the
same chain without the first call, and a transaction finalized from it carries `v2`. -/
theorem scalar_setter_last_value_wins (parseAmount : String → Except String Amount)
    (b : TemplateTransactionBuilder) (cs : List Call) :
    (∀ (v1 v2 : String) m, chain parseAmount b (Call.creatorAccountId v1 :: cs) = .ok m →
      ∃ r, (m.creatorAccountId v2).outcome = .ok r ∧
        r.transaction_.payload.creator_account_id = v2 ∧
        chain parseAmount b (cs ++ [Call.creatorAccountId v2]) = .ok r ∧
        ∀ u, r.build.outcome = .ok u → u.object_.proto.payload.creator_account_id = v2) ∧
    (∀ (v1 v2 : Nat) m, chain parseAmount b (Call.txCounter v1 :: cs) = .ok m →
      ∃ r, (m.txCounter v2).outcome = .ok r ∧
        r.transaction_.payload.tx_counter = v2 ∧
        chain parseAmount b (cs ++ [Call.txCounter v2]) = .ok r ∧
        ∀ u, r.build.outcome = .ok u → u.object_.proto.payload.tx_counter = v2) ∧
    (∀ (v1 v2 : Nat) m, chain parseAmount b (Call.createdTime v1 :: cs) = .ok m →
      ∃ r, (m.createdTime v2).outcome = .ok r ∧
        r.transaction_.payload.created_time = v2 ∧
        chain parseAmount b (cs ++ [Call.createdTime v2]) = .ok r ∧
        ∀ u, r.build.outcome = .ok u → u.object_.proto.payload.created_time = v2) := by
  refine ⟨fun v1 v2 m h => ?_, fun v1 v2 m h => ?_, fun v1 v2 m h => ?_⟩
  · obtain ⟨r, hr, htx, hch⟩ := overwrite_generic parseAmount (Call.creatorAccountId v1)
      (Call.creatorAccountId v2) rfl (fun _ => rfl) (fun _ => rfl) (fun _ => rfl) rfl b m cs h
    have hv : r.transaction_.payload.creator_account_id = v2 := by rw [htx]; rfl
    exact ⟨r, hr, hv, hch, fun u hu => by rw [build_ok_proto r u hu]; exact hv⟩
  · obtain ⟨r, hr, htx, hch⟩ := overwrite_generic parseAmount (Call.txCounter v1)
      (Call.txCounter v2) rfl (fun _ => rfl) (fun _ => rfl) (fun _ => rfl) rfl b m cs h
    have hv : r.transaction_.payload.tx_counter = v2 := by rw [htx]; rfl
    exact ⟨r, hr, hv, hch, fun u hu => by rw [build_ok_proto r u hu]; exact hv⟩
  · obtain ⟨r, hr, htx, hch⟩ := overwrite_generic parseAmount (Call.createdTime v1)
      (Call.createdTime v2) rfl (fun _ => rfl) (fun _ => rfl) (fun _ => rfl) rfl b m cs h
    have hv : r.transaction_.payload.created_time = v2 := by rw [htx]; rfl
    exact ⟨r, hr, hv, hch, fun u hu => by rw [build_ok_proto r u hu]; exact hv⟩

/-- C5, a concrete instance: the creator id set to "a@d", a command and a counter added, the
creator id set again to "b@d". -/
theorem scalar_setter_last_value_wins_witness :
    ∃ m r, chain parseOne (TransactionBuilder alwaysValid)
        [Call.creatorAccountId "a@d", Call.createDomain "d" "user", Call.txCounter 5]
        = .ok m ∧
      (m.creatorAccountId "b@d").outcome = .ok r ∧
      r.transaction_.payload.creator_account_id = "b@d" ∧
      chain parseOne (TransactionBuilder alwaysValid)
        [Call.createDomain "d" "user", Call.txCounter 5, Call.creatorAccountId "b@d"]
        = .ok r := by
  obtain ⟨r, h1, h2, h3, _⟩ := (scalar_setter_last_value_wins parseOne
    (TransactionBuilder alwaysValid) [Call.createDomain "d" "user", Call.txCounter 5]).1
    "a@d" "b@d" _ rfl
  exact ⟨_, r, rfl, h1, h2, h3⟩

/-! ## The scenario of the specification -/

/-- C6: the chain `TransactionBuilder().creatorAccountId(a).txCounter(c).createdTime(t)
.addPeer(addr, k).build()`, with a validator that never reports errors, returns an unsigned
transaction with creator id `a`, counter `c`, created time `t` and exactly one command, the
`AddPeer` with address `addr` and the bytes of `k` as peer key. -/
theorem add_peer_scenario (validator : StatelessValidator)
    (hvalid : ∀ tx, (validator.validate tx).hasErrors = false)
    (a : String) (c t : Nat) (addr : String) (k : PubkeyType) :
    ∃ b1 b2 b3 b4 u,
      ((TransactionBuilder validator).creatorAccountId a).outcome = .ok b1 ∧
      (b1.txCounter c).outcome = .ok b2 ∧
      (b2.createdTime t).outcome = .ok b3 ∧
      (b3.addPeer addr k).outcome = .ok b4 ∧
      b4.build.outcome = .ok u ∧
      u.object_.proto.payload.creator_account_id = a ∧
      u.object_.proto.payload.tx_counter = c ∧
      u.object_.proto.payload.created_time = t ∧
      u.object_.proto.payload.commands =
        [Command.add_peer { address := addr, peer_key := k.blob }] := by
  refine ⟨
    { S := 2, SV := ValidatorType.DefaultValidator,
      transaction_ := { payload := { creator_account_id := a } },
      stateless_validator_ := validator },
    { S := 6, SV := ValidatorType.DefaultValidator,
      transaction_ := { payload := { creator_account_id := a, tx_counter := c } },
      stateless_validator_ := validator },
    { S := 14, SV := ValidatorType.DefaultValidator,
      transaction_ :=
        { payload := { creator_account_id := a, tx_counter := c, created_time := t } },
      stateless_validator_ := validator },
    { S := 15, SV := ValidatorType.DefaultValidator,
      transaction_ :=
        { payload :=
          { commands := [Command.add_peer { address := addr, peer_key := k.blob }],
            creator_account_id := a, tx_counter := c, created_time := t } },
      stateless_validator_ := validator },
    { object_ := { proto :=
        { payload :=
          { commands := [Command.add_peer { address := addr, peer_key := k.blob }],
            creator_account_id := a, tx_counter := c, created_time := t } } } },
    rfl, rfl, rfl, rfl, ?_, rfl, rfl, rfl, rfl⟩
  simp only [TemplateTransactionBuilder.build, TemplateTransactionBuilder.full_marker,
    ne_eq, not_true_eq_false, if_false, hvalid]
  rfl

/-- C6, the instance of the specification: creator "a@domain", counter 1, created time
1000, peer "127.0.0.1:10001" with a key of 32 bytes. -/
theorem add_peer_scenario_witness :
    ∃ b u,
      chain parseOne (TransactionBuilder alwaysValid)
        [Call.creatorAccountId "a@domain", Call.txCounter 1, Call.createdTime 1000,
          Call.addPeer "127.0.0.1:10001" { blob := List.replicate 32 7 }] = .ok b ∧
      b.build.outcome = .ok u ∧
      u.object_.proto.payload.creator_account_id = "a@domain" ∧
      u.object_.proto.payload.tx_counter = 1 ∧
      u.object_.proto.payload.created_time = 1000 ∧
      u.object_.proto.payload.commands =
        [Command.add_peer { address := "127.0.0.1:10001",
                            peer_key := List.replicate 32 7 }] ∧
      (List.replicate 32 (7 : Fin 256)).length = 32 := by
  obtain ⟨b1, b2, b3, b4, u, h1, h2, h3, h4, h5, h6, h7, h8, h9⟩ :=
    add_peer_scenario alwaysValid (fun _ => rfl) "a@domain" 1 1000 "127.0.0.1:10001"
      { blob := List.replicate 32 7 }
  refine ⟨b4, u, ?_, h5, h6, h7, h8, h9, rfl⟩
  refine (chain_cons_ok_iff _ _ _ _ _).2 ⟨b1, h1, ?_⟩
  refine (chain_cons_ok_iff _ _ _ _ _).2 ⟨b2, h2, ?_⟩
  refine (chain_cons_ok_iff _ _ _ _ _).2 ⟨b3, h3, ?_⟩
  exact (chain_cons_ok_iff _ _ _ _ _).2 ⟨b4, h4, rfl⟩

/-! ## Receivers -/

/-- C7: every mutator and `build()` leave the receiver as it was (draft, marker and
validator), so a second call on the same builder gives what it gives without the first:
two continuations of one builder do not depend on each other.  The same holds for the two
private members, whatever the transformation. -/
theorem receiver_left_untouched (parseAmount : String → Except String Amount)
    (b : TemplateTransactionBuilder) :
    (∀ c : Call, (c.apply parseAmount b).receiver = b) ∧
    b.build.receiver = b ∧
    (∀ (Fields : Int) (t : ProtoTx → ProtoTx), (b.transform Fields t).receiver = b) ∧
    (∀ t : Command → Except Failure Command, (b.addCommand t).receiver = b) ∧
    (∀ c d : Call,
      d.apply parseAmount (c.apply parseAmount b).receiver = d.apply parseAmount b) ∧
    (∀ c : Call, (c.apply parseAmount b).receiver.build = b.build) ∧
    (∀ c : Call, c.apply parseAmount b.build.receiver = c.apply parseAmount b) := by
  have h : ∀ c : Call, (c.apply parseAmount b).receiver = b := by
    intro c
    cases c <;> rfl
  exact ⟨h, rfl, fun _ _ => rfl, fun _ => rfl, fun c d => by rw [h c],
    fun c => by rw [h c], fun _ => rfl⟩

/-! ## The command-adding methods -/

/-- C8: whenever the copy-initialisation of `NextBuilder<Command>` is well-formed, each of
`addPeer`, `addSignatory`, `removeSignatory`, `createAsset`, `createAccount`, `createDomain`,
`setAccountQuorum`, `addAssetQuantity` and `transferAsset` returns, for all arguments, the
receiver with exactly one more command at the end: the variant named by the method, each
field holding the corresponding argument, public keys as their blob and the amount as the
result of the amount parser on the given string. -/
theorem command_methods_append_their_variant (parseAmount : String → Except String Amount)
    (b : TemplateTransactionBuilder)
    (hconv : TemplateTransactionBuilder.NextBuilder b.S RequiredFields.Command = b.S ∨
      b.SV = ValidatorType.DefaultValidator) :
    (∀ address peer_key, (b.addPeer address peer_key).outcome = .ok
        { S := TemplateTransactionBuilder.NextBuilder b.S RequiredFields.Command, SV := b.SV,
          transaction_ := b.transaction_.add_commands
            (Command.add_peer { address := address, peer_key := peer_key.blob }),
          stateless_validator_ := b.stateless_validator_ }) ∧
    (∀ account_id public_key, (b.addSignatory account_id public_key).outcome = .ok
        { S := TemplateTransactionBuilder.NextBuilder b.S RequiredFields.Command, SV := b.SV,
          transaction_ := b.transaction_.add_commands
            (Command.add_signatory
              { account_id := account_id, public_key := public_key.blob }),
          stateless_validator_ := b.stateless_validator_ }) ∧
    (∀ account_id public_key, (b.removeSignatory account_id public_key).outcome = .ok
        { S := TemplateTransactionBuilder.NextBuilder b.S RequiredFields.Command, SV := b.SV,
          transaction_ := b.transaction_.add_commands
            (Command.remove_sign
              { account_id := account_id, public_key := public_key.blob }),
          stateless_validator_ := b.stateless_validator_ }) ∧
    (∀ asset_name domain_id precision,
      (b.createAsset asset_name domain_id precision).outcome = .ok
        { S := TemplateTransactionBuilder.NextBuilder b.S RequiredFields.Command, SV := b.SV,
          transaction_ := b.transaction_.add_commands
            (Command.create_asset
              { asset_name := asset_name, domain_id := domain_id, precision := precision }),
          stateless_validator_ := b.stateless_validator_ }) ∧
    (∀ account_name domain_id main_pubkey,
      (b.createAccount account_name domain_id main_pubkey).outcome = .ok
        { S := TemplateTransactionBuilder.NextBuilder b.S RequiredFields.Command, SV := b.SV,
          transaction_ := b.transaction_.add_commands
            (Command.create_account
              { account_name := account_name, domain_id := domain_id,
                main_pubkey := main_pubkey.blob }),
          stateless_validator_ := b.stateless_validator_ }) ∧
    (∀ domain_id default_role, (b.createDomain domain_id default_role).outcome = .ok
        { S := TemplateTransactionBuilder.NextBuilder b.S RequiredFields.Command, SV := b.SV,
          transaction_ := b.transaction_.add_commands
            (Command.create_domain { domain_id := domain_id, default_role := default_role }),
          stateless_validator_ := b.stateless_validator_ }) ∧
    (∀ account_id quorum, (b.setAccountQuorum account_id quorum).outcome = .ok
        { S := TemplateTransactionBuilder.NextBuilder b.S RequiredFields.Command, SV := b.SV,
          transaction_ := b.transaction_.add_commands
            (Command.set_quorum { account_id := account_id, quorum := quorum }),
          stateless_validator_ := b.stateless_validator_ }) ∧
    (∀ account_id asset_id amount parsed, parseAmount amount = .ok parsed →
      (b.addAssetQuantity parseAmount account_id asset_id amount).outcome = .ok
        { S := TemplateTransactionBuilder.NextBuilder b.S RequiredFields.Command, SV := b.SV,
          transaction_ := b.transaction_.add_commands
            (Command.add_asset_quantity
              { account_id := account_id, asset_id := asset_id, amount := parsed }),
          stateless_validator_ := b.stateless_validator_ }) ∧
    (∀ src_account_id dest_account_id asset_id description amount parsed,
      parseAmount amount = .ok parsed →
      (b.transferAsset parseAmount src_account_id dest_account_id asset_id description
        amount).outcome = .ok
        { S := TemplateTransactionBuilder.NextBuilder b.S RequiredFields.Command, SV := b.SV,
          transaction_ := b.transaction_.add_commands
            (Command.transfer_asset
              { src_account_id := src_account_id, dest_account_id := dest_account_id,
                asset_id := asset_id, description := description, amount := parsed }),
          stateless_validator_ := b.stateless_validator_ }) := by
  refine ⟨?_, ?_, ?_, ?_, ?_, ?_, ?_, ?_, ?_⟩
  · intro address peer_key
    exact (TemplateTransactionBuilder.addCommand_ok_iff b _ _).2 ⟨hconv, _, rfl, rfl⟩
  · intro account_id public_key
    exact (TemplateTransactionBuilder.addCommand_ok_iff b _ _).2 ⟨hconv, _, rfl, rfl⟩
  · intro account_id public_key
    exact (TemplateTransactionBuilder.addCommand_ok_iff b _ _).2 ⟨hconv, _, rfl, rfl⟩
  · intro asset_name domain_id precision
    exact (TemplateTransactionBuilder.addCommand_ok_iff b _ _).2 ⟨hconv, _, rfl, rfl⟩
  · intro account_name domain_id main_pubkey
    exact (TemplateTransactionBuilder.addCommand_ok_iff b _ _).2 ⟨hconv, _, rfl, rfl⟩
  · intro domain_id default_role
    exact (TemplateTransactionBuilder.addCommand_ok_iff b _ _).2 ⟨hconv, _, rfl, rfl⟩
  · intro account_id quorum
    exact (TemplateTransactionBuilder.addCommand_ok_iff b _ _).2 ⟨hconv, _, rfl, rfl⟩
  · intro account_id asset_id amount parsed hp
    refine (TemplateTransactionBuilder.addCommand_ok_iff b _ _).2 ⟨hconv, _, ?_, rfl⟩
    simp only [addAmount, hp, bind, Except.bind, pure, Except.pure,
      Command.mutable_add_asset_quantity]
  · intro src_account_id dest_account_id asset_id description amount parsed hp
    refine (TemplateTransactionBuilder.addCommand_ok_iff b _ _).2 ⟨hconv, _, ?_, rfl⟩
    simp only [addAmount, hp, bind, Except.bind, pure, Except.pure,
      Command.mutable_transfer_asset]

/-- C8, a concrete instance: `transferAsset` on a complete builder with a validator type of
its own; the amount string "1" goes through the parser. -/
theorem command_methods_append_their_variant_witness :
    ((TemplateTransactionBuilder.new 15 (ValidatorType.other "Stub") alwaysValid).transferAsset
      parseOne "a@d" "b@d" "coin#d" "rent" "1").outcome = .ok
        { S := 15, SV := ValidatorType.other "Stub",
          transaction_ := { payload := { commands := [Command.transfer_asset
            { src_account_id := "a@d", dest_account_id := "b@d", asset_id := "coin#d",
              description := "rent", amount := { value := 1, precision := 0 } }] } },
          stateless_validator_ := alwaysValid } :=
  (command_methods_append_their_variant parseOne
    (TemplateTransactionBuilder.new 15 (ValidatorType.other "Stub") alwaysValid)
    (Or.inl (by decide))).2.2.2.2.2.2.2.2 "a@d" "b@d" "coin#d" "rent" "1"
    { value := 1, precision := 0 } rfl

/-- C9 (the code departs from the claim): `setAccountDetail` returns no builder, whatever
the receiver and the arguments: its body applies the call operator to the pointer
`proto_command`, so every use of the method is rejected by the compiler. -/
theorem setAccountDetail_is_rejected (b : TemplateTransactionBuilder)
    (account_id key value : String) :
    (∃ diagnostic, (b.setAccountDetail account_id key value).outcome =
      .error (.ill_formed diagnostic)) ∧
    (∀ r, (b.setAccountDetail account_id key value).outcome ≠ .ok r) ∧
    ((TransactionBuilder alwaysValid).setAccountDetail "a@domain" "key" "value").outcome =
      .error (.ill_formed "called object type is not a function or function pointer") := by
  have hno : ∀ r, (b.setAccountDetail account_id key value).outcome ≠ .ok r := by
    intro r hr
    obtain ⟨h, _⟩ := (apply_ok_iff (fun _ => .error "") b r
      (Call.setAccountDetail account_id key value)).1 hr
    cases h
  refine ⟨?_, hno, rfl⟩
  unfold TemplateTransactionBuilder.setAccountDetail TemplateTransactionBuilder.addCommand
  simp only [bind, Except.bind, TemplateTransactionBuilder.call_pointer]
  cases h : TemplateTransactionBuilder.copy_initialize
      (TemplateTransactionBuilder.NextBuilder b.S RequiredFields.Command) b with
  | ok c => exact ⟨_, rfl⟩
  | error e =>
    unfold TemplateTransactionBuilder.copy_initialize at h
    split at h
    · cases h
    · split at h
      · cases h
      · cases h; exact ⟨_, rfl⟩

/-- C10 (the code departs from the claim): under a validator type other than
`validation::DefaultValidator` no mutator can be called on the empty builder: the converting
constructor takes `TemplateTransactionBuilder<Sp>` only, so the builder with the next marker
cannot be made from the receiver and the validator does not travel. -/
theorem other_validator_type_blocks_first_mutator
    (parseAmount : String → Except String Amount) (name : String)
    (validator : StatelessValidator) (c : Call) :
    (c.apply parseAmount
      (TemplateTransactionBuilder.new 0 (ValidatorType.other name) validator)).outcome =
      .error (.ill_formed "no viable conversion between builder types") := by
  cases c <;> rfl

/-! ## The marker as a set of bits -/

theorem lor_of_testBit (z : Int) (k : Nat) (h : z.testBit k = true) :
    Int.lor z ((2 ^ k : Nat) : Int) = z := by
  cases z with
  | ofNat m =>
    show ((m ||| 2 ^ k : Nat) : Int) = (m : Int)
    congr 1
    apply Nat.eq_of_testBit_eq
    intro i
    rw [Nat.testBit_or, Nat.testBit_two_pow]
    by_cases hik : k = i
    · subst hik
      have : m.testBit k = true := h
      simp [this]
    · simp [hik]
  | negSucc m =>
    show Int.negSucc (Nat.ldiff m (2 ^ k)) = Int.negSucc m
    congr 1
    apply Nat.eq_of_testBit_eq
    intro i
    rw [Nat.testBit_ldiff, Nat.testBit_two_pow]
    by_cases hik : k = i
    · subst hik
      have : (!(m.testBit k)) = true := h
      simp at this
      simp [this]
    · simp [hik]

theorem testBit_lor_bit (z : Int) (k i : Nat) :
    (Int.lor z ((2 ^ k : Nat) : Int)).testBit i = (z.testBit i || decide (k = i)) := by
  rw [Int.testBit_lor]
  congr 1
  show (2 ^ k : Nat).testBit i = _
  rw [Nat.testBit_two_pow]

theorem bit_of_field (c : Call) :
    (1 : Int) <<< c.field = ((2 ^ c.field.toNat : Nat) : Int) := by
  rcases field_cases c with h | h | h | h <;> rw [h] <;> decide

/-- The marker after a successful call. -/
theorem apply_ok_marker (parseAmount : String → Except String Amount)
    (b r : TemplateTransactionBuilder) (c : Call)
    (h : (c.apply parseAmount b).outcome = .ok r) :
    r.S = Int.lor b.S ((1 : Int) <<< c.field) := by
  obtain ⟨_, _, tx, _, hr⟩ := (apply_ok_iff _ _ _ _).1 h
  rw [hr]
  rfl

/-- C11: the marker returned by a mutator is the bitwise union of the marker of the receiver
and the one bit of the method (`creatorAccountId`: 2, `txCounter`: 4, `createdTime`: 8, every
command-adding method: 1).  So a bit is set after the call exactly when it was set before or
is the bit of the method, a mutator whose bit is already set returns the marker unchanged (a
second call of the same kind changes no bit), and no mutator removes a bit. -/
theorem mutator_marker_is_union (parseAmount : String → Except String Amount)
    (b : TemplateTransactionBuilder) :
    ((1 : Int) <<< RequiredFields.Command = 1 ∧
      (1 : Int) <<< RequiredFields.CreatorAccountId = 2 ∧
      (1 : Int) <<< RequiredFields.TxCounter = 4 ∧
      (1 : Int) <<< RequiredFields.CreatedTime = 8) ∧
    (∀ v r, (b.creatorAccountId v).outcome = .ok r → r.S = Int.lor b.S 2) ∧
    (∀ v r, (b.txCounter v).outcome = .ok r → r.S = Int.lor b.S 4) ∧
    (∀ v r, (b.createdTime v).outcome = .ok r → r.S = Int.lor b.S 8) ∧
    (∀ (c : Call) r, c.addsCommand = true → (c.apply parseAmount b).outcome = .ok r →
      r.S = Int.lor b.S 1) ∧
    (∀ (c : Call) r, (c.apply parseAmount b).outcome = .ok r →
      (∀ i : Nat, r.S.testBit i = (b.S.testBit i || decide (c.field.toNat = i))) ∧
      (b.S.testBit c.field.toNat = true → r.S = b.S) ∧
      (∀ i : Nat, b.S.testBit i = true → r.S.testBit i = true) ∧
      (∀ (d : Call) r2, d.field = c.field → (d.apply parseAmount r).outcome = .ok r2 →
        r2.S = r.S)) := by
  refine ⟨⟨by decide, by decide, by decide, by decide⟩, ?_, ?_, ?_, ?_, ?_⟩
  · intro v r h
    exact apply_ok_marker parseAmount b r (Call.creatorAccountId v) h
  · intro v r h
    exact apply_ok_marker parseAmount b r (Call.txCounter v) h
  · intro v r h
    exact apply_ok_marker parseAmount b r (Call.createdTime v) h
  · intro c r hc h
    have := apply_ok_marker parseAmount b r c h
    cases c <;> first | exact this | cases hc
  · intro c r h
    have hS := apply_ok_marker parseAmount b r c h
    rw [bit_of_field] at hS
    refine ⟨fun i => ?_, fun hbit => ?_, fun i hi => ?_, fun d r2 hd h2 => ?_⟩
    · rw [hS, testBit_lor_bit]
    · rw [hS, lor_of_testBit _ _ hbit]
    · rw [hS, testBit_lor_bit, hi, Bool.true_or]
    · have h2S := apply_ok_marker parseAmount r r2 d h2
      have h1S := apply_ok_marker parseAmount b r c h
      rw [h2S, hd, h1S]
      exact NextBuilder_idem b.S c

/-- C11, a concrete instance: on a builder of marker 3 (command and creator id supplied) a
further command leaves 3, and the counter gives 7. -/
theorem mutator_marker_is_union_witness :
    (∃ r, ((TemplateTransactionBuilder.new 3 ValidatorType.DefaultValidator
        alwaysValid).addPeer "127.0.0.1:10001" { blob := [] }).outcome = .ok r ∧ r.S = 3) ∧
    (∃ r, ((TemplateTransactionBuilder.new 3 ValidatorType.DefaultValidator
        alwaysValid).txCounter 1).outcome = .ok r ∧ r.S = 7) := by
  refine ⟨⟨_, rfl, ?_⟩, ⟨_, rfl, ?_⟩⟩
  · exact ((mutator_marker_is_union parseOne (TemplateTransactionBuilder.new 3
      ValidatorType.DefaultValidator alwaysValid)).2.2.2.2.2
      (Call.addPeer "127.0.0.1:10001" { blob := [] }) _ rfl).2.1 (by decide)
  · exact (mutator_marker_is_union parseOne (TemplateTransactionBuilder.new 3
      ValidatorType.DefaultValidator alwaysValid)).2.2.1 1 _ rfl

/-! ## Amounts that do not parse -/

/-- A failure of the transformation leaves `addCommand` as it is, once the copy is made. -/
theorem addCommand_error (self : TemplateTransactionBuilder)
    (t : Command → Except Failure Command) (e : Failure)
    (hconv : TemplateTransactionBuilder.NextBuilder self.S RequiredFields.Command = self.S ∨
      self.SV = ValidatorType.DefaultValidator)
    (ht : t Command.COMMAND_NOT_SET = .error e) :
    (self.addCommand t).outcome = .error e := by
  have hc := (TemplateTransactionBuilder.copy_initialize_ok_iff
    (TemplateTransactionBuilder.NextBuilder self.S RequiredFields.Command) self _).2
    ⟨hconv, rfl⟩
  unfold TemplateTransactionBuilder.addCommand
  simp only [bind, Except.bind, hc, ht]

/-- C12: when the amount parser rejects the amount string, `addAssetQuantity` and
`transferAsset` return no builder, so no command is appended, with or without an amount: the
call ends with the error of the parser as a domain error (as soon as the call is well-formed),
and a chain that contains such a call returns no builder either. -/
theorem malformed_amount_propagates (parseAmount : String → Except String Amount)
    (b : TemplateTransactionBuilder) (amount what : String)
    (hbad : parseAmount amount = .error what) :
    (∀ account_id asset_id,
      (∀ r, (b.addAssetQuantity parseAmount account_id asset_id amount).outcome ≠ .ok r) ∧
      ((TemplateTransactionBuilder.NextBuilder b.S RequiredFields.Command = b.S ∨
          b.SV = ValidatorType.DefaultValidator) →
        (b.addAssetQuantity parseAmount account_id asset_id amount).outcome =
          .error (.domain_error what))) ∧
    (∀ src_account_id dest_account_id asset_id description,
      (∀ r, (b.transferAsset parseAmount src_account_id dest_account_id asset_id description
        amount).outcome ≠ .ok r) ∧
      ((TemplateTransactionBuilder.NextBuilder b.S RequiredFields.Command = b.S ∨
          b.SV = ValidatorType.DefaultValidator) →
        (b.transferAsset parseAmount src_account_id dest_account_id asset_id description
          amount).outcome = .error (.domain_error what))) ∧
    (∀ (c : Call) (cs ds : List Call) r,
      (∃ account_id asset_id, c = Call.addAssetQuantity account_id asset_id amount) ∨
      (∃ src_account_id dest_account_id asset_id description,
        c = Call.transferAsset src_account_id dest_account_id asset_id description amount) →
      chain parseAmount b (cs ++ c :: ds) ≠ .ok r) := by
  have hq : ∀ (x : TemplateTransactionBuilder) account_id asset_id r,
      (x.addAssetQuantity parseAmount account_id asset_id amount).outcome ≠ .ok r := by
    intro x account_id asset_id r hr
    obtain ⟨_, _, tx, htx, _⟩ := (apply_ok_iff parseAmount x r
      (Call.addAssetQuantity account_id asset_id amount)).1 hr
    simp [Call.draft, Call.command, hbad] at htx
  have ht : ∀ (x : TemplateTransactionBuilder) s d a ds r,
      (x.transferAsset parseAmount s d a ds amount).outcome ≠ .ok r := by
    intro x s d a ds r hr
    obtain ⟨_, _, tx, htx, _⟩ := (apply_ok_iff parseAmount x r
      (Call.transferAsset s d a ds amount)).1 hr
    simp [Call.draft, Call.command, hbad] at htx
  refine ⟨fun account_id asset_id => ⟨hq b account_id asset_id, fun hconv => ?_⟩,
    fun s d a ds => ⟨ht b s d a ds, fun hconv => ?_⟩, ?_⟩
  · refine addCommand_error b _ _ hconv ?_
    simp only [addAmount, hbad, bind, Except.bind]
  · refine addCommand_error b _ _ hconv ?_
    simp only [addAmount, hbad, bind, Except.bind]
  · intro c cs ds r hc hr
    obtain ⟨mid, _, h2⟩ := (chain_append_ok_iff _ _ _ _ _).1 hr
    obtain ⟨next, h3, _⟩ := (chain_cons_ok_iff _ _ _ _ _).1 h2
    rcases hc with ⟨account_id, asset_id, rfl⟩ | ⟨s, d, a, de, rfl⟩
    · exact hq mid account_id asset_id next h3
    · exact ht mid s d a de next h3

/-- C12, a concrete instance: the parser of the instances rejects "1,5"; the call on the empty
builder ends with its error. -/
theorem malformed_amount_propagates_witness :
    parseOne "1,5" = .error "malformed amount" ∧
    ((TransactionBuilder alwaysValid).addAssetQuantity parseOne "a@d" "coin#d" "1,5").outcome =
      .error (.domain_error "malformed amount") ∧
    ∀ r, ((TransactionBuilder alwaysValid).transferAsset parseOne "a@d" "b@d" "coin#d" "rent"
      "1,5").outcome ≠ .ok r :=
  ⟨rfl,
    ((malformed_amount_propagates parseOne (TransactionBuilder alwaysValid) "1,5"
      "malformed amount" rfl).1 "a@d" "coin#d").2 (Or.inr rfl),
    ((malformed_amount_propagates parseOne (TransactionBuilder alwaysValid) "1,5"
      "malformed amount" rfl).2.1 "a@d" "b@d" "coin#d" "rent").1⟩

/-! ## Reuse of a receiver -/

/-- C13, as stated, fails: on a complete builder, after `addPeer` has been called, the
receiver still takes a further mutator (`txCounter`) and still builds. -/
theorem receiver_consumed_counterexample :
    ∃ r1 r2 u,
      ((TemplateTransactionBuilder.new 15 ValidatorType.DefaultValidator alwaysValid).addPeer
        "127.0.0.1:10001" { blob := [] }).outcome = .ok r1 ∧
      (((TemplateTransactionBuilder.new 15 ValidatorType.DefaultValidator alwaysValid).addPeer
        "127.0.0.1:10001" { blob := [] }).receiver.txCounter 1).outcome = .ok r2 ∧
      ((TemplateTransactionBuilder.new 15 ValidatorType.DefaultValidator alwaysValid).addPeer
        "127.0.0.1:10001" { blob := [] }).receiver.build.outcome = .ok u ∧
      r2.transaction_.payload.commands = [] ∧ u.object_.proto.payload.commands = [] :=
  ⟨_, _, _, rfl, rfl, rfl, rfl, rfl⟩

/-- C13, amended: a mutator does not consume its receiver.  After a mutator has been called on
a builder, every further mutator call, every further chain and `build()` on that same builder
give exactly what they give without the first call; what was possible before stays possible. -/
theorem receiver_stays_usable (parseAmount : String → Except String Amount)
    (b : TemplateTransactionBuilder) (c : Call) :
    (∀ d : Call, d.apply parseAmount (c.apply parseAmount b).receiver =
      d.apply parseAmount b) ∧
    (c.apply parseAmount b).receiver.build = b.build ∧
    (∀ cs : List Call, chain parseAmount (c.apply parseAmount b).receiver cs =
      chain parseAmount b cs) ∧
    (∀ (d : Call) r, (d.apply parseAmount b).outcome = .ok r →
      (d.apply parseAmount (c.apply parseAmount b).receiver).outcome = .ok r) ∧
    (∀ u, b.build.outcome = .ok u → (c.apply parseAmount b).receiver.build.outcome = .ok u) := by
  have h : (c.apply parseAmount b).receiver = b := by
    cases c <;> rfl
  rw [h]
  exact ⟨fun _ => rfl, rfl, fun _ => rfl, fun _ _ hd => hd, fun _ hu => hu⟩

/-! ## One change per call -/

/-- C14: every mutator makes one change to the draft.  `creatorAccountId` replaces the creator
id and leaves counter, created time and commands; `txCounter` replaces the counter only;
`createdTime` replaces the created time only; a command-adding method leaves the three
scalars and returns the command list of the receiver with one command after it, so the
commands added before stay, in place, as a prefix. -/
theorem mutator_changes_one_part (parseAmount : String → Except String Amount)
    (b r : TemplateTransactionBuilder) :
    (∀ v, (b.creatorAccountId v).outcome = .ok r →
      r.transaction_.payload.creator_account_id = v ∧
      r.transaction_.payload.tx_counter = b.transaction_.payload.tx_counter ∧
      r.transaction_.payload.created_time = b.transaction_.payload.created_time ∧
      r.transaction_.payload.commands = b.transaction_.payload.commands) ∧
    (∀ v, (b.txCounter v).outcome = .ok r →
      r.transaction_.payload.tx_counter = v ∧
      r.transaction_.payload.creator_account_id =
        b.transaction_.payload.creator_account_id ∧
      r.transaction_.payload.created_time = b.transaction_.payload.created_time ∧
      r.transaction_.payload.commands = b.transaction_.payload.commands) ∧
    (∀ v, (b.createdTime v).outcome = .ok r →
      r.transaction_.payload.created_time = v ∧
      r.transaction_.payload.creator_account_id =
        b.transaction_.payload.creator_account_id ∧
      r.transaction_.payload.tx_counter = b.transaction_.payload.tx_counter ∧
      r.transaction_.payload.commands = b.transaction_.payload.commands) ∧
    (∀ c : Call, c.addsCommand = true → (c.apply parseAmount b).outcome = .ok r →
      r.transaction_.payload.creator_account_id =
        b.transaction_.payload.creator_account_id ∧
      r.transaction_.payload.tx_counter = b.transaction_.payload.tx_counter ∧
      r.transaction_.payload.created_time = b.transaction_.payload.created_time ∧
      (∃ w, r.transaction_.payload.commands = b.transaction_.payload.commands ++ [w]) ∧
      b.transaction_.payload.commands <+: r.transaction_.payload.commands ∧
      ∀ i, i < b.transaction_.payload.commands.length →
        r.transaction_.payload.commands[i]? = b.transaction_.payload.commands[i]?) := by
  refine ⟨fun v h => ?_, fun v h => ?_, fun v h => ?_, fun c hc h => ?_⟩
  · obtain ⟨_, hr⟩ := (TemplateTransactionBuilder.transform_ok_iff b r _ _).1 h
    rw [hr]
    exact ⟨rfl, rfl, rfl, rfl⟩
  · obtain ⟨_, hr⟩ := (TemplateTransactionBuilder.transform_ok_iff b r _ _).1 h
    rw [hr]
    exact ⟨rfl, rfl, rfl, rfl⟩
  · obtain ⟨_, hr⟩ := (TemplateTransactionBuilder.transform_ok_iff b r _ _).1 h
    rw [hr]
    exact ⟨rfl, rfl, rfl, rfl⟩
  · obtain ⟨_, _, tx, htx, hr⟩ := (apply_ok_iff _ _ _ _).1 h
    have hw : ∃ w, tx = b.transaction_.add_commands w := by
      cases c <;> first
        | (simp only [Call.draft, Option.map_eq_some'] at htx
           obtain ⟨w, _, hw⟩ := htx
           exact ⟨w, hw.symm⟩)
        | (exact absurd hc (by simp [Call.addsCommand]))
    obtain ⟨w, hw⟩ := hw
    rw [hr, hw]
    refine ⟨rfl, rfl, rfl, ⟨w, rfl⟩, ⟨[w], rfl⟩, fun i hi => ?_⟩
    simp only [ProtoTx.add_commands]
    rw [List.getElem?_append_left hi]

/-- C14, a concrete instance: `txCounter` on a builder that holds a creator id, a created
time and one command. -/
theorem mutator_changes_one_part_witness :
    ∃ r, (TemplateTransactionBuilder.txCounter
        { S := 11, SV := ValidatorType.DefaultValidator,
          transaction_ := { payload :=
            { commands := [Command.set_quorum { account_id := "a@d", quorum := 2 }],
              creator_account_id := "a@d", tx_counter := 0, created_time := 9 } },
          stateless_validator_ := alwaysValid } 7).outcome = .ok r ∧
      r.transaction_.payload.tx_counter = 7 ∧
      r.transaction_.payload.creator_account_id = "a@d" ∧
      r.transaction_.payload.created_time = 9 ∧
      r.transaction_.payload.commands =
        [Command.set_quorum { account_id := "a@d", quorum := 2 }] :=
  ⟨_, rfl, (mutator_changes_one_part parseOne
    { S := 11, SV := ValidatorType.DefaultValidator,
      transaction_ := { payload :=
        { commands := [Command.set_quorum { account_id := "a@d", quorum := 2 }],
          creator_account_id := "a@d", tx_counter := 0, created_time := 9 } },
      stateless_validator_ := alwaysValid } _).2.1 7 rfl⟩

/-! ## The command bit and the command list -/

theorem markerOf_testBit_zero (c a t k : Bool) : (markerOf c a t k).testBit 0 = c := by
  cases c <;> cases a <;> cases t <;> cases k <;> decide

/-- C15, as stated, fails: the public constructor makes an empty builder for any marker, so
the builder `TemplateTransactionBuilder<15, V>(v)` has the command bit set and no command, and
its `build()` returns a transaction without commands. -/
theorem complete_builder_without_command_counterexample :
    (TemplateTransactionBuilder.new 15 (ValidatorType.other "Stub") alwaysValid).S.testBit 0
      = true ∧
    (TemplateTransactionBuilder.new 15 (ValidatorType.other "Stub")
      alwaysValid).transaction_.payload.commands = [] ∧
    ∃ u, (TemplateTransactionBuilder.new 15 (ValidatorType.other "Stub")
        alwaysValid).build.outcome = .ok u ∧
      u.object_.proto.payload.commands = [] :=
  ⟨by decide, rfl, _, rfl, rfl⟩

/-- C15, amended: for every builder reached from the empty builder of marker 0 by a sequence
of mutators, the command bit of the marker is set if and only if the command list of the draft
is not empty; hence every transaction that `build()` returns for such a builder holds at
least one command. -/
theorem command_bit_iff_commands (parseAmount : String → Except String Amount)
    (SV : ValidatorType) (validator : StatelessValidator) (cs : List Call)
    (r : TemplateTransactionBuilder)
    (h : chain parseAmount (TemplateTransactionBuilder.new 0 SV validator) cs = .ok r) :
    (r.S.testBit 0 = true ↔ r.transaction_.payload.commands ≠ []) ∧
    (∀ u, r.build.outcome = .ok u →
      u.object_.proto.payload.commands ≠ [] ∧
      1 ≤ u.object_.proto.payload.commands.length) := by
  have hm := chain_marker parseAmount cs _ r false false false false rfl h
  simp only [Bool.false_or] at hm
  obtain ⟨hc, hlen⟩ := chain_commands parseAmount cs _ r h
  have hc2 : r.transaction_.payload.commands = cs.filterMap (Call.command parseAmount) := by
    rw [hc]; rfl
  have hiff : r.S.testBit 0 = true ↔ r.transaction_.payload.commands ≠ [] := by
    rw [hm, markerOf_testBit_zero, any_field_command, hc2, ← List.length_pos, hlen,
      List.countP_pos_iff]
  refine ⟨hiff, fun u hu => ?_⟩
  have h15 : r.S = 15 := by
    by_contra hne
    obtain ⟨d, hd⟩ := (build_ill_formed_iff r).2 hne
    rw [hd] at hu
    cases hu
  have hne : r.transaction_.payload.commands ≠ [] := hiff.1 (by rw [h15]; decide)
  rw [build_ok_proto r u hu]
  exact ⟨hne, List.length_pos.2 hne⟩

/-- C15 amended, a concrete instance: the four setters from `TransactionBuilder`; the marker
is 15, there is one command, and the transaction built holds it. -/
theorem command_bit_iff_commands_witness :
    ∃ r u, chain parseOne (TemplateTransactionBuilder.new 0 ValidatorType.DefaultValidator
        alwaysValid)
        [Call.creatorAccountId "a@domain", Call.txCounter 1, Call.createdTime 1000,
          Call.addPeer "127.0.0.1:10001" { blob := [] }] = .ok r ∧
      r.build.outcome = .ok u ∧
      r.S.testBit 0 = true ∧
      u.object_.proto.payload.commands ≠ [] := by
  have h := command_bit_iff_commands parseOne ValidatorType.DefaultValidator alwaysValid
    [Call.creatorAccountId "a@domain", Call.txCounter 1, Call.createdTime 1000,
      Call.addPeer "127.0.0.1:10001" { blob := [] }] _ rfl
  exact ⟨_, _, rfl, rfl, by decide, (h.2 _ rfl).1⟩

/-! ## Commutation -/

theorem draft_of_scalar (parseAmount : String → Except String Amount) (c : Call)
    (hc : c.addsCommand = false) (tx : ProtoTx) :
    c.draft parseAmount tx = some (c.setScalar tx) := by
  cases c <;> first | rfl | (exact absurd hc (by simp [Call.addsCommand]))

theorem draft_of_command (parseAmount : String → Except String Amount) (c : Call)
    (hc : c.addsCommand = true) (tx : ProtoTx) :
    c.draft parseAmount tx = (c.command parseAmount).map tx.add_commands := by
  cases c <;> first | rfl | (exact absurd hc (by simp [Call.addsCommand]))

theorem field_of_command (c : Call) (hc : c.addsCommand = true) : c.field = 0 := by
  cases c <;> first | rfl | (exact absurd hc (by simp [Call.addsCommand]))

theorem setScalar_add_commands (c : Call) (tx : ProtoTx) (w : Command) :
    c.setScalar (tx.add_commands w) = (c.setScalar tx).add_commands w := by
  cases c <;> rfl

theorem setScalar_comm (x y : Call) (hxy : x.field ≠ y.field) (tx : ProtoTx) :
    y.setScalar (x.setScalar tx) = x.setScalar (y.setScalar tx) := by
  cases x <;> cases y <;> first | rfl | (exact absurd rfl hxy)

/-- Two calls that write different parts of the draft give the same draft in either order. -/
theorem draft_comm (parseAmount : String → Except String Amount) (x y : Call)
    (hxy : x.field ≠ y.field) (tx t1 t2 : ProtoTx)
    (h1 : x.draft parseAmount tx = some t1) (h2 : y.draft parseAmount t1 = some t2) :
    ∃ s1, y.draft parseAmount tx = some s1 ∧ x.draft parseAmount s1 = some t2 := by
  cases hx : x.addsCommand with
  | false =>
    rw [draft_of_scalar parseAmount x hx] at h1
    cases h1
    cases hy : y.addsCommand with
    | false =>
      rw [draft_of_scalar parseAmount y hy] at h2
      cases h2
      exact ⟨_, draft_of_scalar parseAmount y hy tx, by
        rw [draft_of_scalar parseAmount x hx, setScalar_comm x y hxy]⟩
    | true =>
      rw [draft_of_command parseAmount y hy, Option.map_eq_some'] at h2
      obtain ⟨w, hw, rfl⟩ := h2
      refine ⟨tx.add_commands w, ?_, ?_⟩
      · rw [draft_of_command parseAmount y hy, hw]; rfl
      · rw [draft_of_scalar parseAmount x hx, setScalar_add_commands]
  | true =>
    rw [draft_of_command parseAmount x hx, Option.map_eq_some'] at h1
    obtain ⟨w, hw, rfl⟩ := h1
    cases hy : y.addsCommand with
    | false =>
      rw [draft_of_scalar parseAmount y hy] at h2
      cases h2
      refine ⟨_, draft_of_scalar parseAmount y hy tx, ?_⟩
      rw [draft_of_command parseAmount x hx, hw, setScalar_add_commands]
      rfl
    | true =>
      exact absurd ((field_of_command x hx).trans (field_of_command y hy).symm) hxy

/-- Two adjacent calls that write different parts of the draft can be exchanged. -/
theorem pair_comm (parseAmount : String → Except String Amount) (x y : Call)
    (hxy : x.field ≠ y.field) (b r : TemplateTransactionBuilder)
    (h : chain parseAmount b [x, y] = .ok r) : chain parseAmount b [y, x] = .ok r := by
  obtain ⟨n, h1, h2⟩ := (chain_cons_ok_iff _ _ _ _ _).1 h
  obtain ⟨m, h3, h4⟩ := (chain_cons_ok_iff _ _ _ _ _).1 h2
  cases h4
  obtain ⟨hsx, hcx, t1, hd1, rfl⟩ := (apply_ok_iff _ _ _ _).1 h1
  obtain ⟨hsy, hcy, t2, hd2, hm⟩ := (apply_ok_iff _ _ _ _).1 h3
  simp only at hcy hd2 hm
  obtain ⟨s1, hs1, hs2⟩ := draft_comm parseAmount x y hxy _ _ _ hd1 hd2
  have hcy2 : TemplateTransactionBuilder.NextBuilder b.S y.field = b.S ∨
      b.SV = ValidatorType.DefaultValidator := by
    rcases hcy with hc | hc
    · rcases hcx with hc2 | hc2
      · left; rw [hc2] at hc; exact hc
      · exact Or.inr hc2
    · exact Or.inr hc
  have hcx2 : TemplateTransactionBuilder.NextBuilder
      (TemplateTransactionBuilder.NextBuilder b.S y.field) x.field =
        TemplateTransactionBuilder.NextBuilder b.S y.field ∨
      b.SV = ValidatorType.DefaultValidator := by
    rcases hcy with hc | hc
    · rcases hcx with hc2 | hc2
      · left
        rw [hc2] at hc
        rw [hc, hc2]
      · exact Or.inr hc2
    · exact Or.inr hc
  refine (chain_cons_ok_iff _ _ _ _ _).2 ⟨_, (apply_ok_iff parseAmount b _ y).2
    ⟨hsy, hcy2, s1, hs1, rfl⟩, ?_⟩
  refine (chain_cons_ok_iff _ _ _ _ _).2 ⟨_, (apply_ok_iff parseAmount _ _ x).2
    ⟨hsx, hcx2, _, hs2, rfl⟩, ?_⟩
  rw [hm, NextBuilder_right_comm b.S y x]
  rfl

theorem chain_pair_draft (parseAmount : String → Except String Amount) (x y : Call)
    (b r : TemplateTransactionBuilder) (h : chain parseAmount b [x, y] = .ok r) :
    ∃ t1, x.draft parseAmount b.transaction_ = some t1 ∧
      y.draft parseAmount t1 = some r.transaction_ := by
  obtain ⟨n, h1, h2⟩ := (chain_cons_ok_iff _ _ _ _ _).1 h
  obtain ⟨m, h3, h4⟩ := (chain_cons_ok_iff _ _ _ _ _).1 h2
  cases h4
  obtain ⟨_, _, t1, hd1, rfl⟩ := (apply_ok_iff _ _ _ _).1 h1
  obtain ⟨_, _, t2, hd2, hm⟩ := (apply_ok_iff _ _ _ _).1 h3
  rw [hm]
  exact ⟨t1, hd1, hd2⟩

theorem swap_in_context (parseAmount : String → Except String Amount) (x y : Call)
    (hxy : x.field ≠ y.field) (b r : TemplateTransactionBuilder) (pre post : List Call)
    (h : chain parseAmount b (pre ++ x :: y :: post) = .ok r) :
    chain parseAmount b (pre ++ y :: x :: post) = .ok r := by
  obtain ⟨mid, h1, h2⟩ := (chain_append_ok_iff _ _ _ _ _).1 h
  have h3 : chain parseAmount mid ([x, y] ++ post) = .ok r := h2
  obtain ⟨m2, h4, h5⟩ := (chain_append_ok_iff _ _ _ _ _).1 h3
  have h6 := pair_comm parseAmount x y hxy mid m2 h4
  refine (chain_append_ok_iff _ _ _ _ _).2 ⟨mid, h1, ?_⟩
  exact (chain_append_ok_iff parseAmount [y, x] post mid r).2 ⟨m2, h6, h5⟩

/-- C16: two mutator calls that write different parts of the draft commute.  The part of a
call is its field: two calls have the same field exactly when both add a command or both are
the same scalar setter.  When the fields differ (two setters of different scalars, or a scalar
setter and a command-adding call) the two calls, alone or next to each other anywhere in a
chain, return the same builder in either order: same draft, same marker, same validator.
The order of two command-adding calls with different commands, and of two calls of one scalar
setter with different values, does change the draft. -/
theorem calls_on_different_parts_commute (parseAmount : String → Except String Amount)
    (b : TemplateTransactionBuilder) (x y : Call) :
    (x.field = y.field ↔
      (x.addsCommand = true ∧ y.addsCommand = true) ∨
      (∃ v w, x = Call.creatorAccountId v ∧ y = Call.creatorAccountId w) ∨
      (∃ v w, x = Call.txCounter v ∧ y = Call.txCounter w) ∨
      (∃ v w, x = Call.createdTime v ∧ y = Call.createdTime w)) ∧
    (x.field ≠ y.field →
      (∀ r, chain parseAmount b [x, y] = .ok r ↔ chain parseAmount b [y, x] = .ok r) ∧
      (∀ pre post r, chain parseAmount b (pre ++ x :: y :: post) = .ok r ↔
        chain parseAmount b (pre ++ y :: x :: post) = .ok r)) ∧
    (x.addsCommand = true → y.addsCommand = true →
      x.command parseAmount ≠ y.command parseAmount →
      ∀ r1 r2, chain parseAmount b [x, y] = .ok r1 → chain parseAmount b [y, x] = .ok r2 →
        r1.transaction_.payload.commands ≠ r2.transaction_.payload.commands) ∧
    (∀ (v1 v2 : String) r1 r2, v1 ≠ v2 →
      chain parseAmount b [Call.creatorAccountId v1, Call.creatorAccountId v2] = .ok r1 →
      chain parseAmount b [Call.creatorAccountId v2, Call.creatorAccountId v1] = .ok r2 →
      r1.transaction_.payload.creator_account_id ≠
        r2.transaction_.payload.creator_account_id) ∧
    (∀ (v1 v2 : Nat) r1 r2, v1 ≠ v2 →
      chain parseAmount b [Call.txCounter v1, Call.txCounter v2] = .ok r1 →
      chain parseAmount b [Call.txCounter v2, Call.txCounter v1] = .ok r2 →
      r1.transaction_.payload.tx_counter ≠ r2.transaction_.payload.tx_counter) ∧
    (∀ (v1 v2 : Nat) r1 r2, v1 ≠ v2 →
      chain parseAmount b [Call.createdTime v1, Call.createdTime v2] = .ok r1 →
      chain parseAmount b [Call.createdTime v2, Call.createdTime v1] = .ok r2 →
      r1.transaction_.payload.created_time ≠ r2.transaction_.payload.created_time) := by
  refine ⟨?_, fun hxy => ⟨fun r => ⟨pair_comm parseAmount x y hxy b r,
      pair_comm parseAmount y x (Ne.symm hxy) b r⟩,
    fun pre post r => ⟨swap_in_context parseAmount x y hxy b r pre post,
      swap_in_context parseAmount y x (Ne.symm hxy) b r pre post⟩⟩, ?_, ?_, ?_, ?_⟩
  · cases x <;> cases y <;>
      simp [Call.field, Call.addsCommand, RequiredFields.Command,
        RequiredFields.CreatorAccountId, RequiredFields.TxCounter, RequiredFields.CreatedTime]
  · intro hx hy hne r1 r2 h1 h2 heq
    obtain ⟨c1, l1⟩ := chain_commands parseAmount _ b r1 h1
    obtain ⟨c2, l2⟩ := chain_commands parseAmount _ b r2 h2
    rw [c1, c2] at heq
    have heq2 := List.append_cancel_left heq
    cases hcx : x.command parseAmount with
    | none =>
      simp [List.filterMap_cons, hcx, List.countP_cons, hx, hy] at l1
      cases hcy : y.command parseAmount <;> simp [hcy] at l1
    | some wx =>
      cases hcy : y.command parseAmount with
      | none =>
        simp [List.filterMap_cons, hcx, hcy, List.countP_cons, hx, hy] at l1
      | some wy =>
        simp only [List.filterMap_cons, hcx, hcy, List.filterMap_nil, List.cons.injEq,
          and_true] at heq2
        exact hne (by rw [hcx, hcy, heq2.1])
  · intro v1 v2 r1 r2 hne h1 h2 heq
    obtain ⟨t1, hd1, hd2⟩ := chain_pair_draft parseAmount _ _ b r1 h1
    obtain ⟨s1, he1, he2⟩ := chain_pair_draft parseAmount _ _ b r2 h2
    simp only [Call.draft, Option.some.injEq] at hd1 hd2 he1 he2
    rw [← hd2, ← he2] at heq
    exact hne heq.symm
  · intro v1 v2 r1 r2 hne h1 h2 heq
    obtain ⟨t1, hd1, hd2⟩ := chain_pair_draft parseAmount _ _ b r1 h1
    obtain ⟨s1, he1, he2⟩ := chain_pair_draft parseAmount _ _ b r2 h2
    simp only [Call.draft, Option.some.injEq] at hd1 hd2 he1 he2
    rw [← hd2, ← he2] at heq
    exact hne heq.symm
  · intro v1 v2 r1 r2 hne h1 h2 heq
    obtain ⟨t1, hd1, hd2⟩ := chain_pair_draft parseAmount _ _ b r1 h1
    obtain ⟨s1, he1, he2⟩ := chain_pair_draft parseAmount _ _ b r2 h2
    simp only [Call.draft, Option.some.injEq] at hd1 hd2 he1 he2
    rw [← hd2, ← he2] at heq
    exact hne heq.symm

/-- C16, a concrete instance: `b.creatorAccountId(a).txCounter(c)` and
`b.txCounter(c).creatorAccountId(a)` on the empty builder. -/
theorem calls_on_different_parts_commute_witness :
    ∃ r, chain parseOne (TransactionBuilder alwaysValid)
        [Call.creatorAccountId "a@domain", Call.txCounter 1] = .ok r ∧
      chain parseOne (TransactionBuilder alwaysValid)
        [Call.txCounter 1, Call.creatorAccountId "a@domain"] = .ok r ∧
      r.S = 6 :=
  ⟨_, rfl, (((calls_on_different_parts_commute parseOne (TransactionBuilder alwaysValid)
    (Call.creatorAccountId "a@domain") (Call.txCounter 1)).2.1 (by decide)).1 _).1 rfl, rfl⟩

end shared_model.proto
